import Mathlib

/-!
Verification of the DPWH flood-control reporting pipeline.

The repository contains two near-duplicate JavaScript passes of the same
program: `src/main.js` and `src/unnamed/part_000`.  Functions that are
textually identical in the two files (the record cleaner, `parseFloatSafe`,
`median`, `formatNumber`) are embedded once at top level.  Functions whose
two variants differ (`average`, `generateReport1`, `generateReport2`,
`generateReport3`) are embedded in the namespaces `MainJS` (for `src/main.js`)
and `PartJS` (for `src/unnamed/part_000`).

Modelling conventions:
* JavaScript numbers are modelled by `ℚ`, extended where non-finite values
  can actually arise: `JSNum` has explicit `nan`, `inf`, `ninf`
  constructors, and possibly-NaN quantities (e.g. completion delays) are
  `Option ℚ` with `none` standing for NaN.  Signed zero is not modelled;
  no claim distinguishes `0` from `-0`.
* Raw CSV cells are pre-composed with the JavaScript builtin parsers, which
  are outside this repository: a `RawRecord` field holds the result of
  `parseInt` / `parseFloat`-after-comma-stripping / `dayjs` on the cell
  text (`none` = NaN or an invalid date).  Dates are epoch day numbers, so
  `a.diff(b, "day")` is subtraction.
* `toFixed(2)` and `toLocaleString("en-US", …2 fraction digits…)` both
  round half away from zero on exact rationals; `toFixed2` models the
  numeric value either one displays.  Formatted string fields are modelled
  by that displayed value; `toFixed2Str` additionally renders the exact
  `toFixed(2)` string where a claim is about the rendered text.
* `Array.prototype.sort` is stable (ECMA-262) and, for a consistent
  comparator, every stable sort returns the same list, so `.sort(cmp)` is
  modelled by the stable `List.insertionSort` under the relation
  `cmp a b ≤ 0`, with a comparator result of NaN treated as `+0` exactly
  as in the `SortCompare` abstract operation.
-/

/-- Numeric value displayed by `toFixed(2)` (and by
`toLocaleString("en-US")` with two fraction digits): the argument rounded
to two decimal places, ties away from zero. `round2pos` is the nonnegative
case. -/
def round2pos (q : ℚ) : ℚ := ((⌊q * 100 + 1/2⌋ : ℤ) : ℚ) / 100

/-- Rounding to two decimals, ties away from zero, as performed by the
`toFixed(2)` calls of both source files. -/
def toFixed2 (q : ℚ) : ℚ := if q < 0 then - round2pos (-q) else round2pos q

/-- Digit string of a natural number followed by a forced two-digit
fraction, used to render `n.toFixed(2)` for nonnegative arguments. -/
def fracPad (n : ℕ) : String :=
  if n < 10 then "0" ++ toString n else toString n

/-- The exact string produced by JavaScript `x.toFixed(2)` on the rational
`x`: sign, undecorated integer digits (no thousands grouping), a point and
two fraction digits. -/
def toFixed2Str (q : ℚ) : String :=
  if q < 0 then
    let n : ℕ := (⌊(-q) * 100 + 1/2⌋).toNat
    "-" ++ toString (n / 100) ++ "." ++ fracPad (n % 100)
  else
    let n : ℕ := (⌊q * 100 + 1/2⌋).toNat
    toString (n / 100) ++ "." ++ fracPad (n % 100)

/-- JavaScript double arithmetic results as they occur in this program:
finite values are exact rationals, plus the three non-finite values. -/
inductive JSNum where
  | nan : JSNum
  | inf : JSNum
  | ninf : JSNum
  | fin : ℚ → JSNum
deriving DecidableEq

namespace JSNum

/-- JavaScript `isFinite`. -/
def isFinite : JSNum → Bool
  | fin _ => true
  | _ => false

/-- JavaScript subtraction on possibly non-finite numbers. -/
def sub : JSNum → JSNum → JSNum
  | nan, _ => nan
  | _, nan => nan
  | inf, inf => nan
  | inf, _ => inf
  | ninf, ninf => nan
  | ninf, _ => ninf
  | fin _, inf => ninf
  | fin _, ninf => inf
  | fin a, fin b => fin (a - b)

/-- JavaScript multiplication on possibly non-finite numbers. -/
def mul : JSNum → JSNum → JSNum
  | nan, _ => nan
  | _, nan => nan
  | inf, inf => inf
  | inf, ninf => ninf
  | ninf, inf => ninf
  | ninf, ninf => inf
  | inf, fin q => if q = 0 then nan else if 0 < q then inf else ninf
  | fin q, inf => if q = 0 then nan else if 0 < q then inf else ninf
  | ninf, fin q => if q = 0 then nan else if 0 < q then ninf else inf
  | fin q, ninf => if q = 0 then nan else if 0 < q then ninf else inf
  | fin a, fin b => fin (a * b)

/-- JavaScript division on possibly non-finite numbers (signed zero is not
modelled: a finite value divided by zero is sent to the infinity matching
the dividend's sign, and `0 / 0` to NaN, as with a positive zero divisor). -/
def div : JSNum → JSNum → JSNum
  | nan, _ => nan
  | _, nan => nan
  | inf, inf => nan
  | inf, ninf => nan
  | ninf, inf => nan
  | ninf, ninf => nan
  | inf, fin q => if 0 ≤ q then inf else ninf
  | ninf, fin q => if 0 ≤ q then ninf else inf
  | fin _, inf => fin 0
  | fin _, ninf => fin 0
  | fin a, fin b =>
    if b = 0 then (if a = 0 then nan else if 0 < a then inf else ninf)
    else fin (a / b)

/-- JavaScript `Math.min` on two arguments: NaN absorbs, otherwise the
smaller with `-Infinity` least and `Infinity` greatest. -/
def minJ : JSNum → JSNum → JSNum
  | nan, _ => nan
  | _, nan => nan
  | ninf, _ => ninf
  | _, ninf => ninf
  | inf, b => b
  | a, inf => a
  | fin a, fin b => fin (min a b)

/-- JavaScript `Math.max` on two arguments. -/
def maxJ : JSNum → JSNum → JSNum
  | nan, _ => nan
  | _, nan => nan
  | inf, _ => inf
  | _, inf => inf
  | ninf, b => b
  | a, ninf => a
  | fin a, fin b => fin (max a b)

/-- JavaScript strict inequality `!==` on numbers: NaN is unequal to
everything including itself, otherwise structural. -/
def strictNe (a b : JSNum) : Bool :=
  match a, b with
  | nan, _ => true
  | _, nan => true
  | a, b => decide (a ≠ b)

/-- JavaScript `Number(x.toFixed(2))`: rounds a finite value, and round
trips `NaN` / `±Infinity` through their string forms unchanged. -/
def toFixed2J : JSNum → JSNum
  | fin q => fin (toFixed2 q)
  | x => x

/-- Effective value of an `a - b` sort comparator result as consumed by
`SortCompare`: a NaN comparator value is treated as `+0`, and the sign is
all that matters. -/
def cmpVal : JSNum → ℚ
  | fin q => q
  | inf => 1
  | ninf => -1
  | nan => 0

end JSNum

/-- Inject a possibly-NaN quantity into `JSNum`. -/
def toJS : Option ℚ → JSNum
  | none => JSNum.nan
  | some q => JSNum.fin q

/-- Function `parseFloatSafe` (identical in both files): the argument is
modelled as the result of JavaScript `parseFloat` on the comma-stripped
cell text (`none` = NaN), and a NaN parse is mapped to `0`. -/
def parseFloatSafe : Option ℚ → ℚ
  | none => 0
  | some q => q

/-- Value displayed by `formatNumber(n, 2)` (identical in both files): a
NaN argument displays `"0.00"`, otherwise the argument rounded to two
decimals (the thousands grouping does not change the displayed value). -/
def formatNumberVal : Option ℚ → ℚ
  | none => 0
  | some q => toFixed2 q

/-- Function `median` (identical in both files): `0` on the empty list,
otherwise the list is sorted ascending with the comparator `a - b`, the
middle element (odd length) or the mean of the two central elements (even
length) is taken, and the result is rounded through
`Number(median.toFixed(2))`.  Indexing with `getD` is in range because the
list is nonempty in that branch. -/
def median (arr : List ℚ) : ℚ :=
  if arr.isEmpty then 0
  else
    let s := List.insertionSort (fun a b : ℚ => a ≤ b) arr
    let mid := s.length / 2
    toFixed2 (if s.length % 2 = 1 then s.getD mid 0 else (s.getD (mid - 1) 0 + s.getD mid 0) / 2)

namespace PartJS

/-- Function `average` of `src/unnamed/part_000`, lines 69-89: `0` on the
empty list, otherwise the mean of the non-NaN entries, counting neither a
NaN entry in the sum nor in the divisor; `0` again when every entry is
NaN. -/
def average (arr : List (Option ℚ)) : ℚ :=
  if arr.isEmpty then 0
  else
    let sc := arr.foldl
      (fun (acc : ℚ × ℕ) (x : Option ℚ) =>
        match x with
        | .some q => (acc.1 + q, acc.2 + 1)
        | .none => acc) (0, 0)
    if sc.2 = 0 then 0 else sc.1 / (sc.2 : ℚ)

end PartJS

namespace MainJS

/-- Function `average` of `src/main.js`, lines 65-69: `0` on the empty
list, otherwise `reduce`-sum divided by the length, with no NaN filtering,
so a single NaN entry makes the result NaN. -/
def average (arr : List (Option ℚ)) : Option ℚ :=
  if arr.isEmpty then some 0
  else
    (arr.foldl (fun (acc : Option ℚ) (x : Option ℚ) =>
      match acc, x with
      | .some a, .some b => .some (a + b)
      | _, _ => .none) (.some 0)).map (fun s => s / (arr.length : ℚ))

end MainJS

/-- One raw CSV row.  Each field holds the result of the JavaScript
builtin parser applied to the cell text, since those parsers live outside
this repository: `FundingYear` is the `parseInt` result (`none` = NaN),
the two amounts are `parseFloat` results on the comma-stripped text
(`none` = NaN), the dates are `dayjs` results as epoch days (`none` =
invalid date), and the four description fields are the raw cell strings
(`none` = column absent). -/
structure RawRecord where
  FundingYear : Option ℤ
  ApprovedBudgetForContract : Option ℚ
  ContractCost : Option ℚ
  StartDate : Option ℤ
  ActualCompletionDate : Option ℤ
  Region : Option String
  MainIsland : Option String
  Contractor : Option String
  TypeOfWork : Option String
deriving DecidableEq

/-- A cleaned project entity as pushed by `cleanAndPrepareData`.  The
source object also retains the raw `row`; `CompletionDelayDays` is NaN
(`none`) when `StartDate` is an invalid date, because `diff` against an
invalid date is NaN. -/
structure CleanedProject where
  row : RawRecord
  ApprovedBudgetForContract : ℚ
  ContractCost : ℚ
  StartDate : Option ℤ
  ActualCompletionDate : ℤ
  FundingYear : ℤ
  Region : String
  MainIsland : String
  Contractor : String
  TypeOfWork : String
  CostSavings : ℚ
  CompletionDelayDays : Option ℚ
deriving DecidableEq

/-- JavaScript `String.prototype.trim` (a builtin outside this
repository), modelled directly over the character list: strip leading and
trailing whitespace. -/
def jsTrim (s : String) : String :=
  ⟨((s.data.dropWhile Char.isWhitespace).reverse.dropWhile Char.isWhitespace).reverse⟩

/-- Normalization `field?.trim() || default` applied to the four
description columns: an absent column or a string that trims to empty
falls back to the default. -/
def normField (v : Option String) (dflt : String) : String :=
  match v with
  | none => dflt
  | some s => if jsTrim s = "" then dflt else jsTrim s

/-- One iteration of the cleaning loop (identical in `src/main.js` lines
104-157 and `src/unnamed/part_000` lines 129-194): `ok none` when the row
is skipped by a `continue`, `ok (some p)` when a cleaned project is
pushed.  The two `=== null` comparisons against `parseFloatSafe` results
and the `=== ""` comparison against a `parseDateSafe` result are vacuous
in the source (those functions never return null resp. a string) and are
dropped.  `ActualCompletionDate` is declared `const`, yet the imputation
branch assigns to it, so reaching that branch throws
`TypeError: Assignment to constant variable.` — modelled by `error`. -/
def cleanRow (row : RawRecord) : Except String (Option CleanedProject) :=
  match row.FundingYear with
  | none => .ok none
  | some fy =>
    if fy = 0 ∨ fy < 2021 ∨ 2023 < fy then .ok none
    else
      let budget := parseFloatSafe row.ApprovedBudgetForContract
      if budget ≤ 0 then .ok none
      else
        let cost := parseFloatSafe row.ContractCost
        if cost ≤ 0 then .ok none
        else
          match row.ActualCompletionDate with
          | none => .error "TypeError: Assignment to constant variable."
          | some compl =>
            .ok (some
              { row := row
                ApprovedBudgetForContract := budget
                ContractCost := cost
                StartDate := row.StartDate
                ActualCompletionDate := compl
                FundingYear := fy
                Region := normField row.Region "Unknown"
                MainIsland := normField row.MainIsland "Unknown"
                Contractor := normField row.Contractor "Unknown Contractor"
                TypeOfWork := normField row.TypeOfWork "Unspecified"
                CostSavings := budget - cost
                CompletionDelayDays := row.StartDate.map (fun s => ((compl - s : ℤ) : ℚ)) })

/-- Function `cleanAndPrepareData` (identical in both files): the cleaning
loop over all raw rows, propagating the `TypeError` thrown by the
imputation branch, otherwise returning the cleaned projects in input
order. -/
def cleanAndPrepareData : List RawRecord → Except String (List CleanedProject)
  | [] => .ok []
  | row :: rest =>
    match cleanRow row with
    | .error e => .error e
    | .ok none => cleanAndPrepareData rest
    | .ok (some p) => (cleanAndPrepareData rest).map (fun l => p :: l)

/-- Insertion-order association list update, modelling `if (!map[key]) map[key] = init; …push…`
on a plain JavaScript object: a fresh key is appended at the end, an
existing key's value is updated in place.  (All keys used by the three
analyzers contain a non-digit or describe a contractor name; integer-like
key reordering of JavaScript objects could at most permute the groups,
which no proved statement depends on.) -/
def upsert (m : List (String × α)) (k : String) (f : Option α → α) : List (String × α) :=
  match m with
  | [] => [(k, f none)]
  | (k', v) :: rest => if k' = k then (k', f (some v)) :: rest else (k', v) :: upsert rest k f

/-- A `(region, mainIsland)` aggregation bucket of `generateReport1`. -/
structure RegionGroup where
  Region : String
  MainIsland : String
  budgets : List ℚ
  savings : List ℚ
  delays : List (Option ℚ)
deriving DecidableEq

/-- Group key `` `${r.Region}|${r.MainIsland}` `` of `generateReport1`. -/
def regionKey (r : CleanedProject) : String := r.Region ++ "|" ++ r.MainIsland

/-- Freshly created (empty) region bucket. -/
def regionInit (r : CleanedProject) : RegionGroup :=
  { Region := r.Region, MainIsland := r.MainIsland, budgets := [], savings := [], delays := [] }

/-- The three `push` calls of the `generateReport1` grouping loop. -/
def regionPush (r : CleanedProject) (g : RegionGroup) : RegionGroup :=
  { g with
    budgets := g.budgets ++ [r.ApprovedBudgetForContract]
    savings := g.savings ++ [r.CostSavings]
    delays := g.delays ++ [r.CompletionDelayDays] }

/-- The `regionMap` built by the grouping loop of `generateReport1`
(identical in both files), as an insertion-ordered association list. -/
def regionGroups (data : List CleanedProject) : List (String × RegionGroup) :=
  data.foldl (fun m r => upsert m (regionKey r) (fun g? => regionPush r (g?.getD (regionInit r)))) []

/-- A per-contractor aggregation bucket of `generateReport2`. -/
structure ContractorGroup where
  Contractor : String
  projects : ℕ
  delays : List (Option ℚ)
  totalSavings : ℚ
  totalCost : ℚ
deriving DecidableEq

/-- Freshly created contractor bucket. -/
def contractorInit (name : String) : ContractorGroup :=
  { Contractor := name, projects := 0, delays := [], totalSavings := 0, totalCost := 0 }

/-- The four accumulating statements of the `generateReport2` grouping
loop. -/
def contractorPush (r : CleanedProject) (g : ContractorGroup) : ContractorGroup :=
  { g with
    projects := g.projects + 1
    delays := g.delays ++ [r.CompletionDelayDays]
    totalSavings := g.totalSavings + r.CostSavings
    totalCost := g.totalCost + r.ContractCost }

/-- The `contractorMap` built by the grouping loop of `generateReport2`
(identical in both files): a row whose `Contractor` is the empty string is
skipped by `if (!r.Contractor) continue`. -/
def contractorGroups (data : List CleanedProject) : List (String × ContractorGroup) :=
  data.foldl
    (fun m r =>
      if r.Contractor = "" then m
      else upsert m r.Contractor (fun g? => contractorPush r (g?.getD (contractorInit r.Contractor)))) []

/-- A `(fundingYear, typeOfWork)` aggregation bucket of `generateReport3`. -/
structure TrendGroup where
  FundingYear : ℤ
  TypeOfWork : String
  savings : List ℚ
deriving DecidableEq

/-- Group key `` `${r.FundingYear}|${r.TypeOfWork}` `` of `generateReport3`. -/
def trendKey (r : CleanedProject) : String := toString r.FundingYear ++ "|" ++ r.TypeOfWork

/-- Freshly created trend bucket. -/
def trendInit (r : CleanedProject) : TrendGroup :=
  { FundingYear := r.FundingYear, TypeOfWork := r.TypeOfWork, savings := [] }

/-- The `push` of the `generateReport3` grouping loop. -/
def trendPush (r : CleanedProject) (g : TrendGroup) : TrendGroup :=
  { g with savings := g.savings ++ [r.CostSavings] }

/-- The `typeMap` built by the grouping loop of `generateReport3`
(identical in both files). -/
def trendGroups (data : List CleanedProject) : List (String × TrendGroup) :=
  data.foldl (fun m r => upsert m (trendKey r) (fun g? => trendPush r (g?.getD (trendInit r)))) []

/-- Fold of JavaScript `Math.min(...list)`: no arguments yield
`Infinity`, NaN absorbs. -/
def jsMinList (l : List JSNum) : JSNum := l.foldl JSNum.minJ JSNum.inf

/-- Fold of JavaScript `Math.max(...list)`: no arguments yield
`-Infinity`, NaN absorbs. -/
def jsMaxList (l : List JSNum) : JSNum := l.foldl JSNum.maxJ JSNum.ninf

namespace PartJS

/-- Output row of `generateReport1` in `src/unnamed/part_000`.  Formatted
string fields are modelled by their displayed numeric value;
`EfficiencyScore` is the plain number field of the source row, which the
normalization pass later overwrites. -/
structure Report1Row where
  Region : String
  MainIsland : String
  TotalApprovedBudget : ℚ
  MedianCostSavings : ℚ
  AvgCompletionDelayDays : ℚ
  DelayOver30Percent : ℚ
  EfficiencyScore : JSNum
deriving DecidableEq

/-- The raw efficiency quotient `median(grp.savings) / avgDelay` of
`generateReport1` in `src/unnamed/part_000` (line 232), which is
`±Infinity` or NaN when the average delay is zero. -/
def effRawOf (g : RegionGroup) : JSNum :=
  JSNum.div (JSNum.fin (median g.savings)) (JSNum.fin (average g.delays))

/-- The efficiency after the edge-case policy
`if (!isFinite(efficiency) || efficiency < 0) efficiency = 0` (line 235):
always a finite nonnegative number. -/
def clampEffOf (g : RegionGroup) : ℚ :=
  match effRawOf g with
  | JSNum.fin q => if q < 0 then 0 else q
  | _ => 0

/-- The `delayOver30` percentage of `generateReport1`: NaN delays fail the
`d > 30` comparison.  The denominator is the full group size, never zero
for a reachable group (see the nonempty-group invariant). -/
def delayOver30Of (g : RegionGroup) : ℚ :=
  (((g.delays.filter (fun d =>
      match d with
      | some v => decide (30 < v)
      | none => false)).length : ℚ) / (g.delays.length : ℚ)) * 100

/-- The row built for one region group by the `map` of `generateReport1`
in `src/unnamed/part_000`, lines 227-247, before normalization. -/
def mkRow1 (g : RegionGroup) : Report1Row :=
  { Region := g.Region
    MainIsland := g.MainIsland
    TotalApprovedBudget := formatNumberVal (some g.budgets.sum)
    MedianCostSavings := formatNumberVal (some (median g.savings))
    AvgCompletionDelayDays := formatNumberVal (some (average g.delays))
    DelayOver30Percent := formatNumberVal (some (delayOver30Of g))
    EfficiencyScore := JSNum.fin (clampEffOf g) }

/-- The normalization pass of `generateReport1` in `src/unnamed/part_000`,
lines 255-262, on one score `e`: the `isFinite(r.EfficiencyScore)` test is
subsumed by matching `e` (the stored score is finite by construction of
`clampEffOf`), `maxEff !== minEff` is JavaScript strict inequality, and
the result is `Number(….toFixed(2))`. -/
def finalEffScore (minE maxE e : JSNum) : JSNum :=
  JSNum.toFixed2J
    (if e.isFinite && JSNum.strictNe maxE minE then
      JSNum.mul (JSNum.div (JSNum.sub e minE) (JSNum.sub maxE minE)) (JSNum.fin 100)
    else JSNum.fin 0)

/-- Function `generateReport1` of `src/unnamed/part_000`, lines 200-269:
group by region and island, build rows, min-max normalize the efficiency
scores, and sort by normalized score descending (comparator
`b.EfficiencyScore - a.EfficiencyScore`). -/
def generateReport1 (data : List CleanedProject) : List Report1Row :=
  let results := (regionGroups data).map (fun kg => mkRow1 kg.2)
  let effs := results.map (fun r => r.EfficiencyScore)
  let minEff := jsMinList effs
  let maxEff := jsMaxList effs
  let normalized := results.map (fun r =>
    { r with EfficiencyScore := finalEffScore minEff maxEff r.EfficiencyScore })
  List.insertionSort
    (fun a b => JSNum.cmpVal (JSNum.sub b.EfficiencyScore a.EfficiencyScore) ≤ 0) normalized

/-- Pre-output row of `generateReport2` in `src/unnamed/part_000`,
including the scratch field `_rawTotalCost` used for sorting and deleted
before returning. -/
structure Report2RowFull where
  Contractor : String
  TotalCost : ℚ
  NumProjects : ℕ
  AvgDelay : ℚ
  TotalSavings : ℚ
  ReliabilityIndex : ℚ
  RiskFlag : String
  rawTotalCost : ℚ
deriving DecidableEq

/-- Output row of `generateReport2` in `src/unnamed/part_000` after
`delete c._rawTotalCost`. -/
structure Report2Row where
  Contractor : String
  TotalCost : ℚ
  NumProjects : ℕ
  AvgDelay : ℚ
  TotalSavings : ℚ
  ReliabilityIndex : ℚ
  RiskFlag : String
deriving DecidableEq

/-- The raw reliability product
`(1 - (avgDelay / 90)) * (c.totalSavings / c.totalCost) * 100` of
`generateReport2` in `src/unnamed/part_000` (line 319), non-finite when
the total cost is zero.  The divisor `90` is a nonzero constant, so that
inner quotient is finite. -/
def reliabilityRawOf (g : ContractorGroup) : JSNum :=
  JSNum.mul
    (JSNum.mul
      (JSNum.sub (JSNum.fin 1) (JSNum.div (JSNum.fin (average g.delays)) (JSNum.fin 90)))
      (JSNum.div (JSNum.fin g.totalSavings) (JSNum.fin g.totalCost)))
    (JSNum.fin 100)

/-- The reliability after `if (!isFinite(reliability)) reliability = 0`
and the cap `reliability = Math.min(100, reliability)` (lines 322-325 of
`src/unnamed/part_000`; this variant has no lower clamp). -/
def reliabilityOf (g : ContractorGroup) : ℚ :=
  min 100
    (match reliabilityRawOf g with
    | JSNum.fin q => q
    | _ => 0)

/-- The row built for one contractor group by the `map` of
`generateReport2` in `src/unnamed/part_000`, lines 313-338. -/
def mkRow2 (g : ContractorGroup) : Report2RowFull :=
  { Contractor := g.Contractor
    TotalCost := formatNumberVal (some g.totalCost)
    NumProjects := g.projects
    AvgDelay := formatNumberVal (some (average g.delays))
    TotalSavings := formatNumberVal (some g.totalSavings)
    ReliabilityIndex := formatNumberVal (some (reliabilityOf g))
    RiskFlag := if reliabilityOf g < 50 then "High Risk" else "Low Risk"
    rawTotalCost := g.totalCost }

/-- The `delete c._rawTotalCost` cleanup `map` of `generateReport2`. -/
def dropRaw (r : Report2RowFull) : Report2Row :=
  { Contractor := r.Contractor
    TotalCost := r.TotalCost
    NumProjects := r.NumProjects
    AvgDelay := r.AvgDelay
    TotalSavings := r.TotalSavings
    ReliabilityIndex := r.ReliabilityIndex
    RiskFlag := r.RiskFlag }

/-- Function `generateReport2` of `src/unnamed/part_000`, lines 276-352:
group by contractor, keep groups with at least 5 projects, build rows,
sort by `_rawTotalCost` descending (comparator
`b._rawTotalCost - a._rawTotalCost`), truncate to 15 and drop the scratch
field. -/
def generateReport2 (data : List CleanedProject) : List Report2Row :=
  let rows := (((contractorGroups data).map Prod.snd).filter
    (fun c => decide (5 ≤ c.projects))).map mkRow2
  let sorted := List.insertionSort (fun a b => b.rawTotalCost ≤ a.rawTotalCost) rows
  (sorted.take 15).map dropRaw

/-- Pre-output row of `generateReport3` in `src/unnamed/part_000`,
including the scratch field `_rawAvgSavings` used for tie-breaking and
deleted before returning.  `YoYChange` is the string `change.toFixed(2)`. -/
structure Report3RowFull where
  FundingYear : ℤ
  TypeOfWork : String
  TotalProjects : ℕ
  AvgCostSavings : ℚ
  rawAvgSavings : ℚ
  OverrunRate : ℚ
  YoYChange : String
deriving DecidableEq

/-- Output row of `generateReport3` in `src/unnamed/part_000` after
`delete r._rawAvgSavings`. -/
structure Report3Row where
  FundingYear : ℤ
  TypeOfWork : String
  TotalProjects : ℕ
  AvgCostSavings : ℚ
  OverrunRate : ℚ
  YoYChange : String
deriving DecidableEq

/-- Accumulated `yearTotals[year]` of `generateReport3` in
`src/unnamed/part_000` after the full `map` pass: the sum of the savings
sums of every group with that funding year. -/
def yearTotal (gs : List TrendGroup) (y : ℤ) : ℚ :=
  ((gs.filter (fun g => decide (g.FundingYear = y))).map (fun g => g.savings.sum)).sum

/-- Accumulated `yearCounts[year]` after the full `map` pass: the number
of projects over every group with that funding year. -/
def yearCount (gs : List TrendGroup) (y : ℤ) : ℕ :=
  ((gs.filter (fun g => decide (g.FundingYear = y))).map (fun g => g.savings.length)).sum

/-- Lookup `weightedYearAvg[y] || 0` of `generateReport3`: an absent year
reads as `undefined || 0 = 0`, and `|| 0` also maps an exact `0` average
to itself. -/
def weightedYearAvgOrZero (gs : List TrendGroup) (y : ℤ) : ℚ :=
  if yearCount gs y = 0 then 0 else yearTotal gs y / (yearCount gs y : ℚ)

/-- The `change` computed for one row of `generateReport3` in
`src/unnamed/part_000` (line 425): zero for the 2021 baseline, otherwise
`((yearAvg - baseline) / Math.abs(baseline || 1)) * 100`.  The divisor is
the absolute value of the baseline when the baseline is nonzero, and `1`
when it is zero — not `max(|baseline|, 1)`. -/
def changeOf (gs : List TrendGroup) (y : ℤ) : ℚ :=
  if y = 2021 then 0
  else
    let baseline := weightedYearAvgOrZero gs 2021
    ((weightedYearAvgOrZero gs y - baseline) / |if baseline = 0 then 1 else baseline|) * 100

/-- The row built for one trend group by `generateReport3` in
`src/unnamed/part_000`, lines 385-410, together with the `YoYChange`
field attached by the later `forEach` (lines 423-427); the `forEach` reads
only the completed per-year tallies, so the two passes compose into one
row construction.  `overrunRate` keeps the source's explicit guard on an
empty savings list. -/
def mkRow3 (gs : List TrendGroup) (g : TrendGroup) : Report3RowFull :=
  let avgSavings := average (g.savings.map some)
  { FundingYear := g.FundingYear
    TypeOfWork := g.TypeOfWork
    TotalProjects := g.savings.length
    AvgCostSavings := formatNumberVal (some avgSavings)
    rawAvgSavings := avgSavings
    OverrunRate := formatNumberVal (some
      (if g.savings.length = 0 then 0
       else (((g.savings.filter (fun s => decide (s < 0))).length : ℚ) / (g.savings.length : ℚ)) * 100))
    YoYChange := toFixed2Str (changeOf gs g.FundingYear) }

/-- The `delete r._rawAvgSavings` cleanup of `generateReport3`. -/
def dropRaw3 (r : Report3RowFull) : Report3Row :=
  { FundingYear := r.FundingYear
    TypeOfWork := r.TypeOfWork
    TotalProjects := r.TotalProjects
    AvgCostSavings := r.AvgCostSavings
    OverrunRate := r.OverrunRate
    YoYChange := r.YoYChange }

/-- Function `generateReport3` of `src/unnamed/part_000`, lines 358-440:
group by year and work type, build rows with year-over-year change against
the 2021 weighted baseline, sort by funding year ascending with average
savings descending as tie break, and drop the scratch field. -/
def generateReport3 (data : List CleanedProject) : List Report3Row :=
  let gs := (trendGroups data).map Prod.snd
  let rows := gs.map (mkRow3 gs)
  let sorted := List.insertionSort
    (fun a b =>
      if a.FundingYear = b.FundingYear then b.rawAvgSavings ≤ a.rawAvgSavings
      else a.FundingYear < b.FundingYear) rows
  sorted.map dropRaw3

end PartJS

namespace MainJS

/-- Output row of `generateReport2` in `src/main.js` (lines 229-236):
unlike the other variant there is no `TotalCost` column and the low-risk
label is `"OK"`. -/
structure Report2Row where
  Contractor : String
  Projects : ℕ
  AvgDelay : ℚ
  TotalCostSavings : ℚ
  ReliabilityIndex : ℚ
  RiskFlag : String
deriving DecidableEq

/-- The raw reliability product of `generateReport2` in `src/main.js`
(line 226); the average delay can be NaN because this file's `average`
does not skip NaN entries. -/
def reliabilityRawOf (g : ContractorGroup) : JSNum :=
  JSNum.mul
    (JSNum.mul
      (JSNum.sub (JSNum.fin 1) (JSNum.div (toJS (average g.delays)) (JSNum.fin 90)))
      (JSNum.div (JSNum.fin g.totalSavings) (JSNum.fin g.totalCost)))
    (JSNum.fin 100)

/-- The reliability after `if (!isFinite(reliability)) reliability = 0`
and the two-sided clamp `Math.min(100, Math.max(0, reliability))` of
`src/main.js`, lines 227-228. -/
def reliabilityOf (g : ContractorGroup) : ℚ :=
  min 100 (max 0
    (match reliabilityRawOf g with
    | JSNum.fin q => q
    | _ => 0))

/-- The row built for one contractor group by the `map` of
`generateReport2` in `src/main.js`, lines 224-238. -/
def mkRow2 (g : ContractorGroup) : Report2Row :=
  { Contractor := g.Contractor
    Projects := g.projects
    AvgDelay := formatNumberVal (average g.delays)
    TotalCostSavings := formatNumberVal (some g.totalSavings)
    ReliabilityIndex := formatNumberVal (some (reliabilityOf g))
    RiskFlag := if reliabilityOf g < 50 then "High Risk" else "OK" }

/-- JavaScript `Number()` applied to the `formatNumber` output whose
displayed value is `q`: `toLocaleString("en-US")` inserts comma grouping
exactly when the rounded absolute value reaches `1000`, and `Number` of a
comma-containing string is NaN (`none`). -/
def localeNumVal (q : ℚ) : Option ℚ :=
  if -1000 < q ∧ q < 1000 then some q else none

/-- Value of the `src/main.js` `generateReport2` sort comparator
`b.TotalCostSavings - a.TotalCostSavings`, which subtracts the two
*formatted strings*: both coerce through `Number`, a NaN comparator result
counts as `+0` per `SortCompare`. -/
def cmpRow2 (a b : Report2Row) : ℚ :=
  match localeNumVal b.TotalCostSavings, localeNumVal a.TotalCostSavings with
  | some y, some x => y - x
  | _, _ => 0

/-- Function `generateReport2` of `src/main.js`, lines 208-243: group by
contractor, keep groups with at least 5 projects, build rows, sort with
the string comparator on `TotalCostSavings` and truncate to 15.  Note the
sort key is the formatted total *savings*, not the total contract cost. -/
def generateReport2 (data : List CleanedProject) : List Report2Row :=
  let rows := (((contractorGroups data).map Prod.snd).filter
    (fun c => decide (5 ≤ c.projects))).map mkRow2
  (List.insertionSort (fun a b => cmpRow2 a b ≤ 0) rows).take 15

end MainJS

namespace MainJS

/-- Output row of `generateReport1` in `src/main.js` (lines 188-196): all
seven displayed fields are formatted strings, modelled by their displayed
numeric value; in particular `EfficiencyScore` here is the formatted
string of the clamped (never normalized) score. -/
structure Report1Row where
  Region : String
  MainIsland : String
  TotalApprovedBudget : ℚ
  MedianCostSavings : ℚ
  AvgCompletionDelayDays : ℚ
  DelayOver30Percent : ℚ
  EfficiencyScore : ℚ
deriving DecidableEq

/-- The `delayOver30` percentage of `generateReport1` in `src/main.js`
(line 183), textually identical to the other variant's. -/
def delayOver30Of (g : RegionGroup) : ℚ :=
  (((g.delays.filter (fun d =>
      match d with
      | some v => decide (30 < v)
      | none => false)).length : ℚ) / (g.delays.length : ℚ)) * 100

/-- The efficiency of `src/main.js` after
`let efficiency = (median(grp.savings) / avgDelay) * 100` and the policy
`if (!isFinite(efficiency) || efficiency < 0) efficiency = 0` (lines
184-185); this file's `average` can return NaN, which the policy also
resolves to `0`. -/
def effClampedOf (g : RegionGroup) : ℚ :=
  match JSNum.mul (JSNum.div (JSNum.fin (median g.savings)) (toJS (average g.delays)))
      (JSNum.fin 100) with
  | JSNum.fin q => if q < 0 then 0 else q
  | _ => 0

/-- The final per-group score of `src/main.js`:
`efficiency = Math.min(100, Math.max(0, efficiency))` (line 186) — a
two-sided clamp with no min-max normalization across groups. -/
def effOf (g : RegionGroup) : ℚ := min 100 (max 0 (effClampedOf g))

/-- The row built for one region group by the `map` of `generateReport1`
in `src/main.js`, lines 181-198. -/
def mkRow1 (g : RegionGroup) : Report1Row :=
  { Region := g.Region
    MainIsland := g.MainIsland
    TotalApprovedBudget := formatNumberVal (some g.budgets.sum)
    MedianCostSavings := formatNumberVal (some (median g.savings))
    AvgCompletionDelayDays := formatNumberVal (average g.delays)
    DelayOver30Percent := formatNumberVal (some (delayOver30Of g))
    EfficiencyScore := formatNumberVal (some (effOf g)) }

/-- Value of the `src/main.js` `generateReport1` sort comparator
`b.EfficiencyScore - a.EfficiencyScore` (line 200), which subtracts the
two formatted *strings*; both coerce through `Number` and a NaN result
counts as `+0` per `SortCompare`. -/
def cmpRow1 (a b : Report1Row) : ℚ :=
  match localeNumVal b.EfficiencyScore, localeNumVal a.EfficiencyScore with
  | some y, some x => y - x
  | _, _ => 0

/-- Function `generateReport1` of `src/main.js`, lines 163-202: group by
region and island, build rows with the clamped score, and sort with the
string comparator on `EfficiencyScore`.  No normalization pass exists in
this variant. -/
def generateReport1 (data : List CleanedProject) : List Report1Row :=
  List.insertionSort (fun a b => cmpRow1 a b ≤ 0)
    ((regionGroups data).map (fun kg => mkRow1 kg.2))

/-- Output row of `generateReport3` in `src/main.js` (lines 265-271 plus
the `YoYChangePercent` attached by the `forEach` of lines 276-280). -/
structure Report3Row where
  FundingYear : ℤ
  TypeOfWork : String
  TotalProjects : ℕ
  AvgCostSavings : ℚ
  OverrunRate : ℚ
  YoYChangePercent : String
deriving DecidableEq

/-- The completed `avgSavingsByYear[y]` array of `generateReport3` in
`src/main.js` after the full `map` pass: the per-group averages of every
group with funding year `y`, in group order.  Unlike the other variant,
the year aggregate is later taken as the plain `average` of this list —
the *unweighted* mean of group averages. -/
def yearAvgList (gs : List TrendGroup) (y : ℤ) : List (Option ℚ) :=
  (gs.filter (fun g => decide (g.FundingYear = y))).map
    (fun g => average (g.savings.map some))

/-- The `baseline = average(avgSavingsByYear[2021] || [0])` of
`src/main.js` (line 275): the unweighted mean of the 2021 group averages,
or `average([0]) = 0` when no 2021 group exists (`avgSavingsByYear[2021]`
is created only together with its first push, so a present entry is never
the empty array). -/
def baselineM (gs : List TrendGroup) : Option ℚ :=
  if yearAvgList gs 2021 = [] then average [some 0] else average (yearAvgList gs 2021)

/-- The `yearAvg = average(avgSavingsByYear[r.FundingYear])` of
`src/main.js` (line 277).  Every report row's year has an entry, so the
totalizing value on an absent year is never consulted. -/
def yearAvgM (gs : List TrendGroup) (y : ℤ) : Option ℚ := average (yearAvgList gs y)

/-- JavaScript `Math.abs(baseline || 1)` on a possibly-NaN baseline: NaN
and `0` are falsy and yield `1`, otherwise the absolute value. -/
def absOr1 : Option ℚ → ℚ
  | none => 1
  | some q => if q = 0 then 1 else |q|

/-- The `change` computed for one row of `generateReport3` in
`src/main.js` (line 278): zero for the 2021 baseline year, otherwise
`((yearAvg - baseline) / Math.abs(baseline || 1)) * 100` over the
unweighted yearly means. -/
def changeOf (gs : List TrendGroup) (y : ℤ) : JSNum :=
  if y = 2021 then JSNum.fin 0
  else
    JSNum.mul
      (JSNum.div (JSNum.sub (toJS (yearAvgM gs y)) (toJS (baselineM gs)))
        (JSNum.fin (absOr1 (baselineM gs))))
      (JSNum.fin 100)

/-- JavaScript `x.toFixed(2)` on a possibly non-finite number: finite
values render as `toFixed2Str`, the non-finite values as their names. -/
def toFixed2StrJ : JSNum → String
  | JSNum.fin q => toFixed2Str q
  | JSNum.nan => "NaN"
  | JSNum.inf => "Infinity"
  | JSNum.ninf => "-Infinity"

/-- The row built for one trend group by `generateReport3` in
`src/main.js`, lines 260-272, together with the `YoYChangePercent` field
attached by the later `forEach` (lines 276-280); the `forEach` reads only
the completed `avgSavingsByYear` tallies, so the two passes compose into
one row construction.  The overrun division has no empty-list guard in
this variant. -/
def mkRow3 (gs : List TrendGroup) (g : TrendGroup) : Report3Row :=
  { FundingYear := g.FundingYear
    TypeOfWork := g.TypeOfWork
    TotalProjects := g.savings.length
    AvgCostSavings := formatNumberVal (average (g.savings.map some))
    OverrunRate := formatNumberVal (some
      ((((g.savings.filter (fun s => decide (s < 0))).length : ℚ) / (g.savings.length : ℚ)) * 100))
    YoYChangePercent := toFixed2StrJ (changeOf gs g.FundingYear) }

/-- Value of the `src/main.js` `generateReport3` sort comparator
`a.FundingYear - b.FundingYear || b.AvgCostSavings - a.AvgCostSavings`
(line 282): the year difference when nonzero, else the subtraction of the
two formatted `AvgCostSavings` *strings* coerced through `Number`, with a
NaN result counting as `+0`. -/
def cmpRow3 (a b : Report3Row) : ℚ :=
  if a.FundingYear = b.FundingYear then
    match localeNumVal b.AvgCostSavings, localeNumVal a.AvgCostSavings with
    | some y, some x => y - x
    | _, _ => 0
  else ((a.FundingYear - b.FundingYear : ℤ) : ℚ)

/-- Function `generateReport3` of `src/main.js`, lines 249-284: group by
year and work type, build rows with year-over-year change against the
*unweighted* mean of the 2021 group averages, and sort by funding year
ascending with the formatted average-savings string as tie break. -/
def generateReport3 (data : List CleanedProject) : List Report3Row :=
  let gs := (trendGroups data).map Prod.snd
  List.insertionSort (fun a b => cmpRow3 a b ≤ 0) (gs.map (mkRow3 gs))

end MainJS

/-- Acceptance predicate of the cleaner as the specification states it: the
funding year parses to an integer in `{2021, 2022, 2023}` and both
amounts, parsed with thousands separators stripped and unparsable values
treated as `0`, are strictly positive. -/
def rowAccepted (r : RawRecord) : Bool :=
  (match r.FundingYear with
   | some y => decide (y = 2021 ∨ y = 2022 ∨ y = 2023)
   | none => false)
  && decide (0 < parseFloatSafe r.ApprovedBudgetForContract)
  && decide (0 < parseFloatSafe r.ContractCost)

namespace PartJS

/-- The raw (pre-normalization, post-clamp) efficiency scores of a run of
`generateReport1`, in group insertion order. -/
def rawScores (data : List CleanedProject) : List ℚ :=
  (regionGroups data).map (fun kg => clampEffOf kg.2)

/-- Modelled from the spec's words, for comparison with the code's
per-year tallies: the project-count-weighted average of savings over all
of a year's `(year, typeOfWork)` groups, i.e. the group averages weighted
by group size. -/
def weightedAvgSpec (gs : List TrendGroup) (y : ℤ) : ℚ :=
  let ys := gs.filter (fun g => decide (g.FundingYear = y))
  ((ys.map (fun g => (g.savings.length : ℚ) * average (g.savings.map some))).sum) /
    ((ys.map (fun g => (g.savings.length : ℚ))).sum)

end PartJS

/-- A raw row passing the year and amount checks whose completion date is
an invalid date: evaluating the cleaner on it reaches the imputation
branch and its assignment to a `const`. -/
def cxRowC1 : RawRecord :=
  { FundingYear := some 2021, ApprovedBudgetForContract := some 100, ContractCost := some 50,
    StartDate := some 0, ActualCompletionDate := none,
    Region := some "NCR", MainIsland := some "Luzon",
    Contractor := some "A", TypeOfWork := some "W" }

/-- A second raw row of the same shape with different amounts, used to
exhibit the thrown `TypeError` for the safety claim. -/
def cxRowC2 : RawRecord :=
  { FundingYear := some 2022, ApprovedBudgetForContract := some 7, ContractCost := some 3,
    StartDate := none, ActualCompletionDate := none,
    Region := some "R", MainIsland := some "I",
    Contractor := some "B", TypeOfWork := some "V" }

/-- A raw row accepted by every check, with parseable dates. -/
def wRowOkC1 : RawRecord :=
  { FundingYear := some 2023, ApprovedBudgetForContract := some 10, ContractCost := some 4,
    StartDate := some 5, ActualCompletionDate := some 11,
    Region := some "R", MainIsland := some "I",
    Contractor := some "C", TypeOfWork := some "W" }

/-- A raw row rejected by the funding-year check. -/
def wRowBadYearC1 : RawRecord :=
  { wRowOkC1 with FundingYear := some 2019 }

/-- Placeholder raw row retained inside directly constructed cleaned
projects used by concrete test data. -/
def rawStub : RawRecord :=
  { FundingYear := some 2021, ApprovedBudgetForContract := some 1, ContractCost := some 1,
    StartDate := some 0, ActualCompletionDate := some 0,
    Region := some "NCR", MainIsland := some "Luzon",
    Contractor := some "A", TypeOfWork := some "W" }

/-- A directly constructed cleaned project template for concrete data. -/
def projStub : CleanedProject :=
  { row := rawStub, ApprovedBudgetForContract := 110, ContractCost := 100,
    StartDate := some 0, ActualCompletionDate := 0, FundingYear := 2021,
    Region := "NCR", MainIsland := "Luzon", Contractor := "A", TypeOfWork := "W",
    CostSavings := 10, CompletionDelayDays := some 0 }

/-- Counterexample data for the contractor report ordering: contractor
`"A"` has 5 projects, each of cost 100 and savings 10 (total cost 500,
total savings 50); contractor `"B"` has 5 projects, each of cost 40 and
savings 20 (total cost 200, total savings 100). -/
def cxDataC4 : List CleanedProject :=
  List.replicate 5 projStub ++
    List.replicate 5
      { projStub with Contractor := "B", ApprovedBudgetForContract := 60, ContractCost := 40,
                      CostSavings := 20 }

/-- Counterexample data for the cost-trend report: one 2021 project with
savings `1/2` and one 2022 project with savings `3/2`, giving a baseline
average of `1/2`. -/
def cxDataC5 : List CleanedProject :=
  [ { projStub with ApprovedBudgetForContract := 201/2, ContractCost := 100, CostSavings := 1/2 },
    { projStub with FundingYear := 2022, ApprovedBudgetForContract := 203/2, ContractCost := 100,
                    CostSavings := 3/2 } ]

/-- One-project witness data for the regional report claims. -/
def wDataC3 : List CleanedProject :=
  [ { projStub with CompletionDelayDays := some 10 } ]

/-- Witness data for the contractor report claim: a single contractor with
exactly 5 projects. -/
def wDataC4 : List CleanedProject := List.replicate 5 projStub

/-- Witness data for the cost-trend report claim: one 2021 project and one
2022 project with unit savings. -/
def wDataC5 : List CleanedProject :=
  [ { projStub with CostSavings := 1 },
    { projStub with FundingYear := 2022, CostSavings := 2 } ]

/-- Witness group with zero total cost for the degenerate reliability
division. -/
def wGroupC7 : ContractorGroup :=
  { Contractor := "Z", projects := 5, delays := [some 1], totalSavings := 3, totalCost := 0 }

/-- Witness region group with zero average delay for the degenerate
efficiency division. -/
def wRegionC7 : RegionGroup :=
  { Region := "R", MainIsland := "I", budgets := [5], savings := [4], delays := [some 0] }

/-- Witness data for the nonempty-group invariant. -/
def wDataC10 : List CleanedProject := [projStub]

/-- Witness data for the single-group normalization: one region, one
project. -/
def wDataC7 : List CleanedProject :=
  [ { projStub with CompletionDelayDays := some 3 } ]

/-- Input rows for the cleaner witness: one fully valid row followed by
one row rejected by the funding-year check. -/
def wRowsC1 : List RawRecord := [wRowOkC1, wRowBadYearC1]

/-- Expected cleaner output on `wRowsC1`. -/
def wCleanC1 : List CleanedProject :=
  [ { row := wRowOkC1, ApprovedBudgetForContract := 10, ContractCost := 4,
      StartDate := some 5, ActualCompletionDate := 11, FundingYear := 2023,
      Region := "R", MainIsland := "I", Contractor := "C", TypeOfWork := "W",
      CostSavings := 6, CompletionDelayDays := some 6 } ]

/-- Expected single row of the regional report on `wDataC3`. -/
def wRowC3 : PartJS.Report1Row :=
  { Region := "NCR", MainIsland := "Luzon", TotalApprovedBudget := 110,
    MedianCostSavings := 10, AvgCompletionDelayDays := 10, DelayOver30Percent := 0,
    EfficiencyScore := JSNum.fin 0 }

/-- Expected single row of the contractor report on `wDataC4`. -/
def wRowC4 : PartJS.Report2Row :=
  { Contractor := "A", TotalCost := 500, NumProjects := 5, AvgDelay := 0,
    TotalSavings := 50, ReliabilityIndex := 10, RiskFlag := "High Risk" }

/-- Expected 2022 row of the trend report on `wDataC5`. -/
def wRowC5 : PartJS.Report3Row :=
  { FundingYear := 2022, TypeOfWork := "W", TotalProjects := 1, AvgCostSavings := 2,
    OverrunRate := 0, YoYChange := "100.00" }

/-- Expected single row of the regional report on `wDataC7`. -/
def wRowC7 : PartJS.Report1Row :=
  { Region := "NCR", MainIsland := "Luzon", TotalApprovedBudget := 110,
    MedianCostSavings := 10, AvgCompletionDelayDays := 3, DelayOver30Percent := 0,
    EfficiencyScore := JSNum.fin 0 }

/-- Expected single region group on `wDataC10`. -/
def wGroupC10 : RegionGroup :=
  { Region := "NCR", MainIsland := "Luzon", budgets := [110], savings := [10],
    delays := [some 0] }

/-- Counterexample data for the regional report: a single-group run with
savings 20 and delay 10, whose clamped `src/main.js` score is `100`, not
`0`. -/
def cxDataC3 : List CleanedProject :=
  [ { projStub with ApprovedBudgetForContract := 120, ContractCost := 100, CostSavings := 20,
                    CompletionDelayDays := some 10 } ]

/-- Counterexample data for the cost-trend report of `src/main.js`: 2021
groups `W` (two projects, savings 0 each) and `V` (one project, savings
3), and one 2022 project with savings 6.  The unweighted mean of the 2021
group averages is `3/2`, while their project-count-weighted average is
`1`. -/
def cxDataC5b : List CleanedProject :=
  [ { projStub with ApprovedBudgetForContract := 100, CostSavings := 0 },
    { projStub with ApprovedBudgetForContract := 100, CostSavings := 0 },
    { projStub with TypeOfWork := "V", ApprovedBudgetForContract := 103, CostSavings := 3 },
    { projStub with FundingYear := 2022, ApprovedBudgetForContract := 106, CostSavings := 6 } ]

/-- Expected single row of the `src/main.js` regional report on
`wDataC3`. -/
def wMainRowC3 : MainJS.Report1Row :=
  { Region := "NCR", MainIsland := "Luzon", TotalApprovedBudget := 110,
    MedianCostSavings := 10, AvgCompletionDelayDays := 10, DelayOver30Percent := 0,
    EfficiencyScore := 100 }

/-- Expected 2022 row of the `src/main.js` trend report on `wDataC5`. -/
def wMainRowC5 : MainJS.Report3Row :=
  { FundingYear := 2022, TypeOfWork := "W", TotalProjects := 1, AvgCostSavings := 2,
    OverrunRate := 0, YoYChangePercent := "100.00" }

/-! ### Rounding lemmas -/

lemma round2pos_nonneg {q : ℚ} (h : 0 ≤ q) : 0 ≤ round2pos q := by
  unfold round2pos
  have h1 : (0 : ℤ) ≤ ⌊q * 100 + 1/2⌋ := by
    rw [Int.le_floor]
    push_cast
    nlinarith
  positivity

lemma round2pos_mono {a b : ℚ} (h : a ≤ b) : round2pos a ≤ round2pos b := by
  unfold round2pos
  have h1 : ⌊a * 100 + 1/2⌋ ≤ ⌊b * 100 + 1/2⌋ := by
    apply Int.floor_le_floor
    nlinarith
  have h2 : ((⌊a * 100 + 1/2⌋ : ℤ) : ℚ) ≤ ((⌊b * 100 + 1/2⌋ : ℤ) : ℚ) := by exact_mod_cast h1
  linarith

lemma abs_round2pos_sub_le (q : ℚ) : |round2pos q - q| ≤ 1/200 := by
  unfold round2pos
  have h1 : ((⌊q * 100 + 1/2⌋ : ℤ) : ℚ) ≤ q * 100 + 1/2 := Int.floor_le _
  have h2 : q * 100 + 1/2 < ((⌊q * 100 + 1/2⌋ : ℤ) : ℚ) + 1 := Int.lt_floor_add_one _
  rw [abs_le]
  constructor <;> nlinarith

lemma toFixed2_zero : toFixed2 0 = 0 := by
  unfold toFixed2 round2pos
  norm_num

lemma toFixed2_mono {a b : ℚ} (h : a ≤ b) : toFixed2 a ≤ toFixed2 b := by
  unfold toFixed2
  rcases lt_or_le a 0 with ha | ha
  · rcases lt_or_le b 0 with hb | hb
    · rw [if_pos ha, if_pos hb]
      have := round2pos_mono (neg_le_neg h)
      linarith
    · rw [if_pos ha, if_neg (not_lt.mpr hb)]
      have h1 : 0 ≤ round2pos (-a) := round2pos_nonneg (by linarith)
      have h2 : 0 ≤ round2pos b := round2pos_nonneg hb
      linarith
  · rw [if_neg (not_lt.mpr ha), if_neg (not_lt.mpr (le_trans ha h))]
    exact round2pos_mono h

lemma abs_toFixed2_sub_le (q : ℚ) : |toFixed2 q - q| ≤ 1/200 := by
  unfold toFixed2
  rcases lt_or_le q 0 with hq | hq
  · rw [if_pos hq]
    have := abs_round2pos_sub_le (-q)
    rw [show -round2pos (-q) - q = -(round2pos (-q) - -q) by ring, abs_neg]
    exact this
  · rw [if_neg (not_lt.mpr hq)]
    exact abs_round2pos_sub_le q

lemma toFixed2_nonneg {q : ℚ} (h : 0 ≤ q) : 0 ≤ toFixed2 q := by
  have := toFixed2_mono h
  rwa [toFixed2_zero] at this

lemma toFixed2_hundred : toFixed2 (100 : ℚ) = 100 := by
  unfold toFixed2 round2pos
  norm_num

lemma toFixed2_le_hundred {q : ℚ} (h : q ≤ 100) : toFixed2 q ≤ 100 := by
  have := toFixed2_mono h
  rwa [toFixed2_hundred] at this

/-! ### Average characterization -/

lemma partAverage_foldl (arr : List (Option ℚ)) (s : ℚ) (c : ℕ) :
    arr.foldl
      (fun (acc : ℚ × ℕ) (x : Option ℚ) =>
        match x with
        | .some q => (acc.1 + q, acc.2 + 1)
        | .none => acc) (s, c) =
    (s + (arr.filterMap id).sum, c + (arr.filterMap id).length) := by
  induction arr generalizing s c with
  | nil => simp
  | cons a rest ih =>
    cases a with
    | none => simp only [List.foldl_cons, List.filterMap_cons_none]; exact ih s c
    | some q =>
      have hq : (some q :: rest).filterMap (id : Option ℚ → Option ℚ) = q :: rest.filterMap id := rfl
      simp only [List.foldl_cons, hq]
      rw [ih]
      simp only [List.sum_cons, List.length_cons, Prod.mk.injEq]
      constructor <;> [ring; omega]

/-- The `average` of `src/unnamed/part_000` equals the mean of the non-NaN
entries, or `0` when there are none. -/
lemma partAverage_eq (arr : List (Option ℚ)) :
    PartJS.average arr =
      if arr.filterMap id = [] then 0
      else (arr.filterMap id).sum / ((arr.filterMap id).length : ℚ) := by
  unfold PartJS.average
  rcases h : arr with _ | ⟨a, rest⟩
  · simp
  · rw [← h]
    have hne : arr.isEmpty = false := by rw [h]; rfl
    rw [hne]
    simp only [Bool.false_eq_true, if_false, partAverage_foldl, Nat.zero_add, zero_add]
    rcases hf : arr.filterMap id with _ | ⟨b, r2⟩
    · simp
    · have : (arr.filterMap id).length ≠ 0 := by rw [hf]; simp
      rw [← hf]
      simp [List.length_eq_zero, hf, this]

/-- The `average` of `src/unnamed/part_000` on a list of plain numbers is
the plain mean. -/
lemma partAverage_map_some (l : List ℚ) :
    PartJS.average (l.map some) = if l = [] then 0 else l.sum / (l.length : ℚ) := by
  have h : (l.map some).filterMap id = l := by
    induction l with
    | nil => rfl
    | cons a r ih => simp [ih]
  rw [partAverage_eq, h]

/-! ### Association-list and fold infrastructure -/

lemma foldl_preserve {γ δ : Type _} {P : γ → Prop} (step : γ → δ → γ) (l : List δ)
    (init : γ) (h0 : P init) (hs : ∀ acc d, P acc → P (step acc d)) :
    P (l.foldl step init) := by
  induction l generalizing init with
  | nil => exact h0
  | cons a rest ih => exact ih (step init a) (hs init a h0)

lemma upsert_forall {α : Type _} {Q : String × α → Prop} {m : List (String × α)} {k : String}
    {f : Option α → α} (h : ∀ kv ∈ m, Q kv) (hf : ∀ k' o, Q (k', f o)) :
    ∀ kv ∈ upsert m k f, Q kv := by
  induction m with
  | nil =>
    intro kv hkv
    simp only [upsert, List.mem_singleton] at hkv
    subst hkv
    exact hf k none
  | cons hd tl ih =>
    intro kv hkv
    obtain ⟨k', v⟩ := hd
    simp only [upsert] at hkv
    by_cases hk : k' = k
    · rw [if_pos hk] at hkv
      rcases List.mem_cons.mp hkv with h1 | h1
      · subst h1; exact hf k' (some v)
      · exact h _ (List.mem_cons_of_mem _ h1)
    · rw [if_neg hk] at hkv
      rcases List.mem_cons.mp hkv with h1 | h1
      · subst h1; exact h _ (List.mem_cons_self _ _)
      · exact ih (fun kv hkv => h kv (List.mem_cons_of_mem _ hkv)) kv h1

/-! ### Nonempty-group invariants -/

lemma regionGroups_nonempty (data : List CleanedProject) :
    ∀ kv ∈ regionGroups data,
      kv.2.budgets ≠ [] ∧ kv.2.savings ≠ [] ∧ kv.2.delays ≠ [] := by
  unfold regionGroups
  apply foldl_preserve
    (P := fun (m : List (String × RegionGroup)) =>
      ∀ kv ∈ m, kv.2.budgets ≠ [] ∧ kv.2.savings ≠ [] ∧ kv.2.delays ≠ [])
  · intro kv hkv; cases hkv
  · intro acc r h
    apply upsert_forall h
    intro k' o
    refine ⟨?_, ?_, ?_⟩ <;> simp [regionPush]

lemma contractorGroups_pos (data : List CleanedProject) :
    ∀ kv ∈ contractorGroups data, 1 ≤ kv.2.projects ∧ kv.2.delays ≠ [] := by
  unfold contractorGroups
  apply foldl_preserve
    (P := fun (m : List (String × ContractorGroup)) => ∀ kv ∈ m, 1 ≤ kv.2.projects ∧ kv.2.delays ≠ [])
  · intro kv hkv; cases hkv
  · intro acc r h
    by_cases hc : r.Contractor = ""
    · rw [if_pos hc]; exact h
    · rw [if_neg hc]
      apply upsert_forall h
      intro k' o
      refine ⟨?_, ?_⟩ <;> simp [contractorPush]

lemma trendGroups_nonempty (data : List CleanedProject) :
    ∀ kv ∈ trendGroups data, kv.2.savings ≠ [] := by
  unfold trendGroups
  apply foldl_preserve
    (P := fun (m : List (String × TrendGroup)) => ∀ kv ∈ m, kv.2.savings ≠ [])
  · intro kv hkv; cases hkv
  · intro acc r h
    apply upsert_forall h
    intro k' o
    simp [trendPush]

/-! ### Cleaner lemmas -/

lemma cleanRow_ok_none {row : RawRecord} (h : cleanRow row = .ok none) :
    rowAccepted row = false := by
  unfold cleanRow at h
  unfold rowAccepted
  cases hy : row.FundingYear with
  | none => simp
  | some fy =>
    rw [hy] at h
    dsimp only at h
    simp only [hy]
    split_ifs at h with h1 h2 h3
    · simp only [Bool.and_eq_false_iff]
      left; left
      simp only [decide_eq_false_iff_not]
      omega
    · simp only [Bool.and_eq_false_iff]
      left; right
      simpa using h2
    · simp only [Bool.and_eq_false_iff]
      right
      simpa using h3
    · rcases hc : row.ActualCompletionDate with _ | d <;> rw [hc] at h <;> simp at h

lemma cleanRow_ok_some {row : RawRecord} {p : CleanedProject}
    (h : cleanRow row = .ok (some p)) : rowAccepted row = true ∧ p.row = row := by
  unfold cleanRow at h
  unfold rowAccepted
  cases hy : row.FundingYear with
  | none => rw [hy] at h; simp at h
  | some fy =>
    rw [hy] at h
    dsimp only at h
    simp only [hy]
    split_ifs at h with h1 h2 h3
    · simp at h
    · simp at h
    · simp at h
    · rcases hc : row.ActualCompletionDate with _ | d <;> rw [hc] at h
      · simp at h
      · simp only [Except.ok.injEq, Option.some.injEq] at h
        constructor
        · simp only [Bool.and_eq_true, decide_eq_true_eq]
          refine ⟨⟨?_, ?_⟩, ?_⟩
          · omega
          · simpa using h2
          · simpa using h3
        · rw [← h]

lemma cleanRow_error {row : RawRecord} {e : String} (h : cleanRow row = .error e) :
    rowAccepted row = true ∧ row.ActualCompletionDate = none := by
  unfold cleanRow at h
  unfold rowAccepted
  cases hy : row.FundingYear with
  | none => rw [hy] at h; exact Except.noConfusion h
  | some fy =>
    rw [hy] at h
    dsimp only at h
    simp only [hy]
    split_ifs at h with h1 h2 h3
    rcases hc : row.ActualCompletionDate with _ | d <;> rw [hc] at h <;> dsimp only at h
    · refine ⟨?_, rfl⟩
      simp only [Bool.and_eq_true, decide_eq_true_eq]
      refine ⟨⟨?_, ?_⟩, ?_⟩
      · omega
      · simpa using h2
      · simpa using h3
    · exact Except.noConfusion h

/-- Whenever the cleaner returns successfully, the emitted projects are
exactly (and in order) the input rows satisfying the acceptance
predicate. -/
lemma cleanAndPrepareData_ok_map (rows : List RawRecord) (cleaned : List CleanedProject)
    (h : cleanAndPrepareData rows = .ok cleaned) :
    cleaned.map (fun p => p.row) = rows.filter rowAccepted := by
  induction rows generalizing cleaned with
  | nil =>
    simp only [cleanAndPrepareData, Except.ok.injEq] at h
    subst h
    simp
  | cons row rest ih =>
    rw [cleanAndPrepareData] at h
    rcases hr : cleanRow row with e | p?
    · rw [hr] at h
      exact Except.noConfusion h
    · rcases p? with _ | p
      · rw [hr] at h
        dsimp only at h
        have hacc := cleanRow_ok_none hr
        simp only [List.filter_cons, hacc, Bool.false_eq_true, if_false]
        exact ih cleaned h
      · rw [hr] at h
        dsimp only at h
        rcases hres : cleanAndPrepareData rest with e | cl
        · rw [hres] at h
          exact Except.noConfusion h
        · rw [hres] at h
          have hcl : p :: cl = cleaned := by simpa [Except.map] using h
          subst hcl
          obtain ⟨hacc, hprow⟩ := cleanRow_ok_some hr
          simp only [List.map_cons, List.filter_cons, hacc, if_true]
          rw [hprow, ih cl hres]

/-! ### Budget conservation through the region grouping -/

lemma budgetsSum_upsert (m : List (String × RegionGroup)) (k : String) (r : CleanedProject) :
    ((upsert m k (fun g? => regionPush r (g?.getD (regionInit r)))).map
      (fun kv => kv.2.budgets.sum)).sum
      = (m.map (fun kv => kv.2.budgets.sum)).sum + r.ApprovedBudgetForContract := by
  induction m with
  | nil => simp [upsert, regionPush, regionInit]
  | cons hd tl ih =>
    obtain ⟨k', v⟩ := hd
    simp only [upsert]
    by_cases hk : k' = k
    · rw [if_pos hk]
      simp only [List.map_cons, List.sum_cons, regionPush]
      simp
      ring
    · rw [if_neg hk]
      simp only [List.map_cons, List.sum_cons, ih]
      ring

lemma regionGroups_budgetsSum_aux (data : List CleanedProject)
    (m : List (String × RegionGroup)) :
    ((data.foldl
        (fun m r => upsert m (regionKey r) (fun g? => regionPush r (g?.getD (regionInit r)))) m).map
      (fun kv => kv.2.budgets.sum)).sum
      = (m.map (fun kv => kv.2.budgets.sum)).sum
        + (data.map (fun p => p.ApprovedBudgetForContract)).sum := by
  induction data generalizing m with
  | nil => simp
  | cons r rest ih =>
    simp only [List.foldl_cons, List.map_cons, List.sum_cons]
    rw [ih, budgetsSum_upsert]
    ring

/-- Total budget is conserved by the region grouping: summing the budget
lists of every group recovers the sum over all cleaned projects. -/
lemma regionGroups_budgetsSum (data : List CleanedProject) :
    ((regionGroups data).map (fun kv => kv.2.budgets.sum)).sum
      = (data.map (fun p => p.ApprovedBudgetForContract)).sum := by
  unfold regionGroups
  simpa using regionGroups_budgetsSum_aux data []

/-- Summed two-decimal rounding drifts by at most half a cent per entry. -/
lemma abs_sum_toFixed2_sub (l : List ℚ) :
    |(l.map toFixed2).sum - l.sum| ≤ (l.length : ℚ) / 200 := by
  induction l with
  | nil => simp
  | cons a rest ih =>
    simp only [List.map_cons, List.sum_cons, List.length_cons]
    have h1 := abs_toFixed2_sub_le a
    have h2 : |toFixed2 a + (rest.map toFixed2).sum - (a + rest.sum)|
        ≤ |toFixed2 a - a| + |(rest.map toFixed2).sum - rest.sum| := by
      rw [show toFixed2 a + (rest.map toFixed2).sum - (a + rest.sum)
          = (toFixed2 a - a) + ((rest.map toFixed2).sum - rest.sum) by ring]
      exact abs_add _ _
    push_cast
    linarith

/-- The multiset of displayed `TotalApprovedBudget` values of the regional
report is the rounded per-group budget sums. -/
lemma report1_TAB_perm (data : List CleanedProject) :
    ((PartJS.generateReport1 data).map (fun r => r.TotalApprovedBudget)).Perm
      ((regionGroups data).map (fun kv => toFixed2 kv.2.budgets.sum)) := by
  unfold PartJS.generateReport1
  refine ((List.perm_insertionSort _ _).map _).trans ?_
  simp only [List.map_map]
  exact List.Perm.refl _

/-! ### Efficiency-score normalization analysis -/

lemma foldl_minJ_fin (l : List ℚ) : ∀ a : ℚ,
    ∃ m, List.foldl JSNum.minJ (JSNum.fin a) (l.map JSNum.fin) = JSNum.fin m
      ∧ (m = a ∨ m ∈ l) ∧ m ≤ a ∧ ∀ x ∈ l, m ≤ x := by
  induction l with
  | nil =>
    intro a
    exact ⟨a, rfl, Or.inl rfl, le_refl a, by simp⟩
  | cons q rest ih =>
    intro a
    obtain ⟨m, hfold, hmem, hle, hbound⟩ := ih (min a q)
    refine ⟨m, ?_, ?_, le_trans hle (min_le_left a q), ?_⟩
    · simpa [JSNum.minJ] using hfold
    · rcases hmem with h1 | h1
      · rcases min_choice a q with h2 | h2
        · exact Or.inl (h1.trans h2)
        · exact Or.inr (List.mem_cons.mpr (Or.inl (h1.trans h2)))
      · exact Or.inr (List.mem_cons_of_mem _ h1)
    · intro x hx
      rcases List.mem_cons.mp hx with rfl | hx'
      · exact le_trans hle (min_le_right a x)
      · exact hbound x hx'

lemma foldl_maxJ_fin (l : List ℚ) : ∀ a : ℚ,
    ∃ M, List.foldl JSNum.maxJ (JSNum.fin a) (l.map JSNum.fin) = JSNum.fin M
      ∧ (M = a ∨ M ∈ l) ∧ a ≤ M ∧ ∀ x ∈ l, x ≤ M := by
  induction l with
  | nil =>
    intro a
    exact ⟨a, rfl, Or.inl rfl, le_refl a, by simp⟩
  | cons q rest ih =>
    intro a
    obtain ⟨M, hfold, hmem, hle, hbound⟩ := ih (max a q)
    refine ⟨M, ?_, ?_, le_trans (le_max_left a q) hle, ?_⟩
    · simpa [JSNum.maxJ] using hfold
    · rcases hmem with h1 | h1
      · rcases max_choice a q with h2 | h2
        · exact Or.inl (h1.trans h2)
        · exact Or.inr (List.mem_cons.mpr (Or.inl (h1.trans h2)))
      · exact Or.inr (List.mem_cons_of_mem _ h1)
    · intro x hx
      rcases List.mem_cons.mp hx with rfl | hx'
      · exact le_trans (le_max_right a x) hle
      · exact hbound x hx'

lemma jsMinList_spec (l : List ℚ) (h : l ≠ []) :
    ∃ m, jsMinList (l.map JSNum.fin) = JSNum.fin m ∧ m ∈ l ∧ ∀ x ∈ l, m ≤ x := by
  rcases l with _ | ⟨b, rest⟩
  · exact absurd rfl h
  · obtain ⟨m, hfold, hmem, hle, hbound⟩ := foldl_minJ_fin rest b
    refine ⟨m, ?_, ?_, ?_⟩
    · unfold jsMinList
      simpa [JSNum.minJ] using hfold
    · rcases hmem with h1 | h1
      · exact h1 ▸ List.mem_cons_self _ _
      · exact List.mem_cons_of_mem _ h1
    · intro x hx
      rcases List.mem_cons.mp hx with rfl | hx'
      · exact hle
      · exact hbound x hx'

lemma jsMaxList_spec (l : List ℚ) (h : l ≠ []) :
    ∃ M, jsMaxList (l.map JSNum.fin) = JSNum.fin M ∧ M ∈ l ∧ ∀ x ∈ l, x ≤ M := by
  rcases l with _ | ⟨b, rest⟩
  · exact absurd rfl h
  · obtain ⟨M, hfold, hmem, hle, hbound⟩ := foldl_maxJ_fin rest b
    refine ⟨M, ?_, ?_, ?_⟩
    · unfold jsMaxList
      simpa [JSNum.maxJ] using hfold
    · rcases hmem with h1 | h1
      · exact h1 ▸ List.mem_cons_self _ _
      · exact List.mem_cons_of_mem _ h1
    · intro x hx
      rcases List.mem_cons.mp hx with rfl | hx'
      · exact hle
      · exact hbound x hx'

lemma finalEffScore_of_eq (m e : ℚ) :
    PartJS.finalEffScore (JSNum.fin m) (JSNum.fin m) (JSNum.fin e) = JSNum.fin 0 := by
  unfold PartJS.finalEffScore
  simp [JSNum.strictNe, JSNum.isFinite, JSNum.toFixed2J, toFixed2_zero]

lemma finalEffScore_of_ne {m M : ℚ} (e : ℚ) (hne : M ≠ m) :
    PartJS.finalEffScore (JSNum.fin m) (JSNum.fin M) (JSNum.fin e)
      = JSNum.fin (toFixed2 ((e - m) / (M - m) * 100)) := by
  unfold PartJS.finalEffScore
  have h1 : JSNum.strictNe (JSNum.fin M) (JSNum.fin m) = true := by
    simp [JSNum.strictNe, hne]
  have h2 : M - m ≠ 0 := sub_ne_zero.mpr hne
  simp [h1, JSNum.isFinite, JSNum.sub, JSNum.div, JSNum.mul, JSNum.toFixed2J, h2]

lemma report1_effs_eq (data : List CleanedProject) :
    ((regionGroups data).map (fun kg => PartJS.mkRow1 kg.2)).map (fun r => r.EfficiencyScore)
      = (PartJS.rawScores data).map JSNum.fin := by
  simp only [List.map_map, PartJS.rawScores]
  rfl

/-- Every row of the regional report carries the normalization of one of
the raw scores of the run. -/
lemma mem_generateReport1 {data : List CleanedProject} {row : PartJS.Report1Row}
    (h : row ∈ PartJS.generateReport1 data) :
    ∃ e ∈ PartJS.rawScores data,
      row.EfficiencyScore = PartJS.finalEffScore
        (jsMinList ((PartJS.rawScores data).map JSNum.fin))
        (jsMaxList ((PartJS.rawScores data).map JSNum.fin)) (JSNum.fin e) := by
  simp only [PartJS.generateReport1, report1_effs_eq] at h
  have h2 := (List.perm_insertionSort _ _).subset h
  rw [List.map_map] at h2
  obtain ⟨kg, hkg, heq⟩ := List.mem_map.mp h2
  refine ⟨PartJS.clampEffOf kg.2, ?_, ?_⟩
  · exact List.mem_map.mpr ⟨kg, hkg, rfl⟩
  · rw [← heq]
    rfl

/-- The report and the raw-score list have the same length. -/
lemma report1_length (data : List CleanedProject) :
    (PartJS.generateReport1 data).length = (PartJS.rawScores data).length := by
  simp only [PartJS.generateReport1]
  rw [(List.perm_insertionSort _ _).length_eq]
  simp [PartJS.rawScores]

lemma clampEffOf_nonneg (g : RegionGroup) : 0 ≤ PartJS.clampEffOf g := by
  unfold PartJS.clampEffOf
  rcases PartJS.effRawOf g with _ | _ | _ | q
  · exact le_refl 0
  · exact le_refl 0
  · exact le_refl 0
  · dsimp only
    split_ifs with h
    · exact le_refl 0
    · exact le_of_not_lt h

lemma rawScores_nonneg (data : List CleanedProject) :
    ∀ e ∈ PartJS.rawScores data, 0 ≤ e := by
  intro e he
  obtain ⟨kg, _, rfl⟩ := List.mem_map.mp he
  exact clampEffOf_nonneg kg.2

/-- Every efficiency score of the regional report is a finite number in
`[0, 100]`. -/
lemma report1_eff_bounds {data : List CleanedProject} {row : PartJS.Report1Row}
    (h : row ∈ PartJS.generateReport1 data) :
    ∃ q, row.EfficiencyScore = JSNum.fin q ∧ 0 ≤ q ∧ q ≤ 100 := by
  obtain ⟨e, he, heq⟩ := mem_generateReport1 h
  have hne : PartJS.rawScores data ≠ [] := List.ne_nil_of_mem he
  obtain ⟨m, hm, hmmem, hmlb⟩ := jsMinList_spec _ hne
  obtain ⟨M, hM, hMmem, hMub⟩ := jsMaxList_spec _ hne
  rw [hm, hM] at heq
  by_cases hMm : M = m
  · subst hMm
    rw [finalEffScore_of_eq] at heq
    exact ⟨0, heq, le_refl 0, by norm_num⟩
  · rw [finalEffScore_of_ne e hMm] at heq
    refine ⟨_, heq, ?_, ?_⟩
    · apply toFixed2_nonneg
      have h1 : m ≤ e := hmlb e he
      have h2 : e ≤ M := hMub e he
      have h3 : m < M := lt_of_le_of_ne (le_trans h1 h2) (Ne.symm hMm)
      have h4 : 0 < M - m := by linarith
      exact mul_nonneg (div_nonneg (by linarith) (le_of_lt h4)) (by norm_num)
    · apply toFixed2_le_hundred
      have h1 : m ≤ e := hmlb e he
      have h2 : e ≤ M := hMub e he
      have h3 : m < M := lt_of_le_of_ne (le_trans h1 h2) (Ne.symm hMm)
      have h4 : 0 < M - m := by linarith
      have h5 : (e - m) / (M - m) ≤ 1 := by
        rw [div_le_one h4]
        linarith
      nlinarith [h5, h4]

/-- With a single group, or with all raw scores equal, every normalized
score is exactly `0`. -/
lemma report1_eff_zero {data : List CleanedProject} {row : PartJS.Report1Row}
    (h : row ∈ PartJS.generateReport1 data)
    (hall : (PartJS.generateReport1 data).length = 1 ∨
      ∀ x ∈ PartJS.rawScores data, ∀ y ∈ PartJS.rawScores data, x = y) :
    row.EfficiencyScore = JSNum.fin 0 := by
  obtain ⟨e, he, heq⟩ := mem_generateReport1 h
  have hne : PartJS.rawScores data ≠ [] := List.ne_nil_of_mem he
  obtain ⟨m, hm, hmmem, hmlb⟩ := jsMinList_spec _ hne
  obtain ⟨M, hM, hMmem, hMub⟩ := jsMaxList_spec _ hne
  rw [hm, hM] at heq
  have hMm : M = m := by
    rcases hall with h1 | h1
    · rw [report1_length] at h1
      rcases List.length_eq_one.mp h1 with ⟨x, hx⟩
      rw [hx] at hmmem hMmem
      rcases List.mem_singleton.mp hmmem with rfl
      rcases List.mem_singleton.mp hMmem with rfl
      rfl
    · exact h1 M hMmem m hmmem
  subst hMm
  rw [finalEffScore_of_eq] at heq
  exact heq

/-! ### Degenerate-division policies -/

lemma div_fin_zero_nonfin (a : ℚ) : (JSNum.div (JSNum.fin a) (JSNum.fin 0)).isFinite = false := by
  unfold JSNum.div
  dsimp only
  split_ifs <;> simp_all [JSNum.isFinite]

lemma mul_nonfin_right (A R : JSNum) (hR : R.isFinite = false) :
    (JSNum.mul A R).isFinite = false := by
  cases A <;> cases R <;>
    simp_all [JSNum.isFinite, JSNum.mul] <;> split_ifs <;> simp [JSNum.isFinite]

lemma mul_nonfin_left (X : JSNum) (c : ℚ) (hX : X.isFinite = false) :
    (JSNum.mul X (JSNum.fin c)).isFinite = false := by
  cases X <;> simp_all [JSNum.isFinite, JSNum.mul] <;> split_ifs <;> simp [JSNum.isFinite]

/-- A zero average delay sends the raw efficiency quotient to a non-finite
value, which the clamp resolves to `0`. -/
lemma clampEffOf_of_avgDelay_zero (g : RegionGroup) (h : PartJS.average g.delays = 0) :
    PartJS.clampEffOf g = 0 := by
  unfold PartJS.clampEffOf PartJS.effRawOf
  rw [h]
  unfold JSNum.div
  dsimp only
  split_ifs <;> simp_all

/-- A zero total cost sends the reliability product of
`src/unnamed/part_000` to a non-finite value, which the `isFinite` guard
and the cap resolve to `0`. -/
lemma partReliability_of_cost_zero (g : ContractorGroup) (h : g.totalCost = 0) :
    PartJS.reliabilityOf g = 0 := by
  have hnf : (PartJS.reliabilityRawOf g).isFinite = false := by
    unfold PartJS.reliabilityRawOf
    rw [h]
    exact mul_nonfin_left _ _ (mul_nonfin_right _ _ (div_fin_zero_nonfin _))
  unfold PartJS.reliabilityOf
  cases hx : PartJS.reliabilityRawOf g with
  | fin q => rw [hx] at hnf; simp [JSNum.isFinite] at hnf
  | nan => norm_num
  | inf => norm_num
  | ninf => norm_num

/-- The same policy in `src/main.js`: a zero total cost resolves the
reliability to `0` through the `isFinite` guard and the two-sided clamp. -/
lemma mainReliability_of_cost_zero (g : ContractorGroup) (h : g.totalCost = 0) :
    MainJS.reliabilityOf g = 0 := by
  have hnf : (MainJS.reliabilityRawOf g).isFinite = false := by
    unfold MainJS.reliabilityRawOf
    rw [h]
    exact mul_nonfin_left _ _ (mul_nonfin_right _ _ (div_fin_zero_nonfin _))
  unfold MainJS.reliabilityOf
  cases hx : MainJS.reliabilityRawOf g with
  | fin q => rw [hx] at hnf; simp [JSNum.isFinite] at hnf
  | nan => norm_num
  | inf => norm_num
  | ninf => norm_num

/-! ### Contractor report structure -/

lemma report2_length_le (data : List CleanedProject) :
    (PartJS.generateReport2 data).length ≤ 15 := by
  unfold PartJS.generateReport2
  simp only [List.length_map, List.length_take]
  exact min_le_left _ _

lemma mem_report2 {data : List CleanedProject} {row : PartJS.Report2Row}
    (h : row ∈ PartJS.generateReport2 data) :
    ∃ g ∈ (contractorGroups data).map Prod.snd,
      5 ≤ g.projects ∧ row = PartJS.dropRaw (PartJS.mkRow2 g) := by
  unfold PartJS.generateReport2 at h
  obtain ⟨rf, hrf, rfl⟩ := List.mem_map.mp h
  have h1 : rf ∈ List.insertionSort _ _ := List.mem_of_mem_take hrf
  have h2 := (List.perm_insertionSort _ _).subset h1
  obtain ⟨g, hg, rfl⟩ := List.mem_map.mp h2
  have hg2 := List.mem_filter.mp hg
  exact ⟨g, hg2.1, by simpa using hg2.2, rfl⟩

lemma report2_full_TC {data : List CleanedProject} {rf : PartJS.Report2RowFull}
    (h : rf ∈ List.insertionSort
      (fun a b : PartJS.Report2RowFull => b.rawTotalCost ≤ a.rawTotalCost)
      ((((contractorGroups data).map Prod.snd).filter
        (fun c => decide (5 ≤ c.projects))).map PartJS.mkRow2)) :
    rf.TotalCost = toFixed2 rf.rawTotalCost := by
  have h2 := (List.perm_insertionSort _ _).subset h
  obtain ⟨g, _, rfl⟩ := List.mem_map.mp h2
  rfl

/-- The contractor report rows are non-increasing in displayed total
contract cost. -/
lemma report2_sorted (data : List CleanedProject) :
    (PartJS.generateReport2 data).Pairwise (fun a b => b.TotalCost ≤ a.TotalCost) := by
  unfold PartJS.generateReport2
  rw [List.pairwise_map]
  haveI : IsTotal PartJS.Report2RowFull (fun a b => b.rawTotalCost ≤ a.rawTotalCost) :=
    ⟨fun a b => le_total b.rawTotalCost a.rawTotalCost⟩
  haveI : IsTrans PartJS.Report2RowFull (fun a b => b.rawTotalCost ≤ a.rawTotalCost) :=
    ⟨fun a b c hab hbc => le_trans hbc hab⟩
  have hsorted := List.sorted_insertionSort
    (fun a b : PartJS.Report2RowFull => b.rawTotalCost ≤ a.rawTotalCost)
    ((((contractorGroups data).map Prod.snd).filter
      (fun c => decide (5 ≤ c.projects))).map PartJS.mkRow2)
  have htake := hsorted.sublist (List.take_sublist 15 _)
  refine htake.imp_of_mem ?_
  intro a b ha hb hab
  have ha2 := report2_full_TC (List.mem_of_mem_take ha)
  have hb2 := report2_full_TC (List.mem_of_mem_take hb)
  show (PartJS.dropRaw b).TotalCost ≤ (PartJS.dropRaw a).TotalCost
  show b.TotalCost ≤ a.TotalCost
  rw [ha2, hb2]
  exact toFixed2_mono hab

/-! ### Trend report structure -/

lemma mem_report3 {data : List CleanedProject} {row : PartJS.Report3Row}
    (h : row ∈ PartJS.generateReport3 data) :
    ∃ g ∈ (trendGroups data).map Prod.snd,
      row = PartJS.dropRaw3 (PartJS.mkRow3 ((trendGroups data).map Prod.snd) g) := by
  unfold PartJS.generateReport3 at h
  obtain ⟨rf, hrf, rfl⟩ := List.mem_map.mp h
  have h2 := (List.perm_insertionSort _ _).subset hrf
  obtain ⟨g, hg, rfl⟩ := List.mem_map.mp h2
  exact ⟨g, hg, rfl⟩

lemma toFixed2Str_zero : toFixed2Str 0 = "0.00" := by
  unfold toFixed2Str fracPad
  norm_num
  rfl

/-- For a year actually present among the groups, the code's running
tallies compute exactly the project-count-weighted average of the group
averages. -/
lemma weightedAvg_eq_spec (data : List CleanedProject) (y : ℤ)
    (hc : PartJS.yearCount ((trendGroups data).map Prod.snd) y ≠ 0) :
    PartJS.weightedYearAvgOrZero ((trendGroups data).map Prod.snd) y
      = PartJS.weightedAvgSpec ((trendGroups data).map Prod.snd) y := by
  set gs := (trendGroups data).map Prod.snd with hgs
  have hnonempty : ∀ g ∈ gs, g.savings ≠ [] := by
    intro g hg
    obtain ⟨kv, hkv, rfl⟩ := List.mem_map.mp hg
    exact trendGroups_nonempty data kv hkv
  unfold PartJS.weightedYearAvgOrZero
  rw [if_neg hc]
  unfold PartJS.weightedAvgSpec
  dsimp only
  unfold PartJS.yearTotal PartJS.yearCount
  have hnum : ((gs.filter (fun g => decide (g.FundingYear = y))).map
      (fun g => (g.savings.length : ℚ) * PartJS.average (g.savings.map some))).sum
      = ((gs.filter (fun g => decide (g.FundingYear = y))).map (fun g => g.savings.sum)).sum := by
    apply congrArg
    apply List.map_congr_left
    intro g hg
    have hg2 : g ∈ gs := List.mem_of_mem_filter hg
    have hne := hnonempty g hg2
    rw [partAverage_map_some, if_neg hne]
    have hlen : (g.savings.length : ℚ) ≠ 0 := by
      simp only [ne_eq, Nat.cast_eq_zero, List.length_eq_zero]
      exact hne
    field_simp
  rw [hnum, Nat.cast_list_sum, List.map_map]
  rfl

/-- The year and change string carried by a trend-report row. -/
lemma report3_row_fields (gs : List TrendGroup) (g : TrendGroup) :
    (PartJS.dropRaw3 (PartJS.mkRow3 gs g)).FundingYear = g.FundingYear ∧
    (PartJS.dropRaw3 (PartJS.mkRow3 gs g)).YoYChange
      = toFixed2Str (PartJS.changeOf gs g.FundingYear) := ⟨rfl, rfl⟩

/-! ### Median characterization -/

lemma median_eq_sorted (arr s : List ℚ) (hp : s.Perm arr) (hs : s.Sorted (· ≤ ·)) :
    median arr = if s.isEmpty then 0
      else toFixed2 (if s.length % 2 = 1 then s.getD (s.length / 2) 0
        else (s.getD (s.length / 2 - 1) 0 + s.getD (s.length / 2) 0) / 2) := by
  have hsort : List.insertionSort (fun a b : ℚ => a ≤ b) arr = s :=
    List.eq_of_perm_of_sorted ((List.perm_insertionSort _ arr).trans hp.symm)
      (List.sorted_insertionSort _ arr) hs
  unfold median
  by_cases he : arr.isEmpty
  · rw [if_pos he]
    have hse : s.isEmpty = true := by
      rw [List.isEmpty_iff] at he ⊢
      subst he
      exact hp.eq_nil
    rw [if_pos hse]
  · have hse : ¬s.isEmpty = true := by
      rw [List.isEmpty_iff] at he ⊢
      intro hnil
      rw [hnil] at hp
      exact he hp.symm.eq_nil
    rw [if_neg he, if_neg hse, hsort]

/-! ### The src/main.js regional and trend variants -/

lemma mainMem_generateReport1 {data : List CleanedProject} {row : MainJS.Report1Row}
    (h : row ∈ MainJS.generateReport1 data) :
    ∃ kg ∈ regionGroups data, row = MainJS.mkRow1 kg.2 := by
  unfold MainJS.generateReport1 at h
  have h2 := (List.perm_insertionSort _ _).subset h
  obtain ⟨kg, hkg, heq⟩ := List.mem_map.mp h2
  exact ⟨kg, hkg, heq.symm⟩

/-- The clamp `Math.min(100, Math.max(0, efficiency))` of `src/main.js`
keeps every displayed score within `[0, 100]`. -/
lemma mainEff_bounds (g : RegionGroup) :
    0 ≤ (MainJS.mkRow1 g).EfficiencyScore ∧ (MainJS.mkRow1 g).EfficiencyScore ≤ 100 := by
  show 0 ≤ toFixed2 (MainJS.effOf g) ∧ toFixed2 (MainJS.effOf g) ≤ 100
  unfold MainJS.effOf
  constructor
  · exact toFixed2_nonneg (le_min (by norm_num) (le_max_left 0 _))
  · exact toFixed2_le_hundred (min_le_left _ _)

lemma mainAverage_foldl (l : List ℚ) (s : ℚ) :
    (l.map some).foldl
      (fun (acc : Option ℚ) (x : Option ℚ) =>
        match acc, x with
        | .some a, .some b => .some (a + b)
        | _, _ => .none) (.some s) = some (s + l.sum) := by
  induction l generalizing s with
  | nil => simp
  | cons a rest ih =>
    simp only [List.map_cons, List.foldl_cons]
    rw [ih, List.sum_cons]
    exact congrArg some (by ring)

/-- The `average` of `src/main.js` on a list of plain numbers is the
plain mean (never NaN). -/
lemma mainAverage_map_some (l : List ℚ) :
    MainJS.average (l.map some) = some (if l = [] then 0 else l.sum / (l.length : ℚ)) := by
  unfold MainJS.average
  rcases l with _ | ⟨a, rest⟩
  · simp
  · rw [if_neg (by simp)]
    rw [show ((a :: rest).map some : List (Option ℚ)) = (a :: rest).map some from rfl]
    rw [mainAverage_foldl (a :: rest) 0]
    rw [if_neg (by simp)]
    simp only [Option.map_some, zero_add, List.length_map]
    rfl

lemma mainMem_report3 {data : List CleanedProject} {row : MainJS.Report3Row}
    (h : row ∈ MainJS.generateReport3 data) :
    ∃ g ∈ (trendGroups data).map Prod.snd,
      row = MainJS.mkRow3 ((trendGroups data).map Prod.snd) g := by
  unfold MainJS.generateReport3 at h
  have h2 := (List.perm_insertionSort _ _).subset h
  obtain ⟨g, hg, heq⟩ := List.mem_map.mp h2
  exact ⟨g, hg, heq.symm⟩

/-- For a year present among the groups, the `src/main.js` yearly
aggregate is the *unweighted* mean of that year's group averages. -/
lemma mainYearAvg_eq_naive (data : List CleanedProject) (y : ℤ)
    (hne : ((trendGroups data).map Prod.snd).filter (fun g => decide (g.FundingYear = y)) ≠ []) :
    MainJS.yearAvgM ((trendGroups data).map Prod.snd) y
      = some (((((trendGroups data).map Prod.snd).filter
            (fun g => decide (g.FundingYear = y))).map
          (fun g => g.savings.sum / (g.savings.length : ℚ))).sum
        / ((((trendGroups data).map Prod.snd).filter
            (fun g => decide (g.FundingYear = y))).length : ℚ)) := by
  set gs := (trendGroups data).map Prod.snd with hgs
  have hnonempty : ∀ g ∈ gs, g.savings ≠ [] := by
    intro g hg
    obtain ⟨kv, hkv, rfl⟩ := List.mem_map.mp hg
    exact trendGroups_nonempty data kv hkv
  unfold MainJS.yearAvgM MainJS.yearAvgList
  have hmap : (gs.filter (fun g => decide (g.FundingYear = y))).map
        (fun g => MainJS.average (g.savings.map some))
      = ((gs.filter (fun g => decide (g.FundingYear = y))).map
          (fun g => g.savings.sum / (g.savings.length : ℚ))).map some := by
    rw [List.map_map]
    apply List.map_congr_left
    intro g hg
    have hne2 := hnonempty g (List.mem_of_mem_filter hg)
    rw [mainAverage_map_some, if_neg hne2]
    rfl
  rw [hmap, mainAverage_map_some, if_neg (by simpa using hne)]
  simp only [List.length_map]

lemma toFixed2StrJ_fin_zero : MainJS.toFixed2StrJ (JSNum.fin 0) = "0.00" := by
  show toFixed2Str 0 = "0.00"
  exact toFixed2Str_zero

/-! ### Claims -/

/-- C1 (counterexample): a row whose funding year, budget and cost all
satisfy the claimed acceptance conditions but whose completion date is an
invalid date makes the cleaner throw, so no `CleanedProject` is emitted
for it — the claimed "if and only if" fails as stated. -/
theorem c1_cleaner_iff_counterexample :
    rowAccepted cxRowC1 = true ∧
    cleanAndPrepareData [cxRowC1] = .error "TypeError: Assignment to constant variable." := by
  constructor
  · rfl
  · rfl

/-- C1 (amended): whenever `cleanAndPrepareData` returns at all (it throws
a `TypeError` when a row passing the year/budget/cost checks has an
unparseable `ActualCompletionDate`), a `CleanedProject` is emitted for a
row if and only if the row's `FundingYear` parses to an integer in
`{2021, 2022, 2023}` and both `ApprovedBudgetForContract` and
`ContractCost`, parsed with thousands separators stripped and unparsable
values treated as `0`, are strictly positive: the emitted projects carry
exactly the accepted rows, in input order. -/
theorem c1_cleaner_accepts_iff (rows : List RawRecord) (cleaned : List CleanedProject)
    (h : cleanAndPrepareData rows = .ok cleaned) :
    cleaned.map (fun p => p.row) = rows.filter rowAccepted :=
  cleanAndPrepareData_ok_map rows cleaned h

theorem c1_cleaner_accepts_iff_witness :
    cleanAndPrepareData wRowsC1 = .ok wCleanC1 ∧
    wCleanC1.map (fun p => p.row) = wRowsC1.filter rowAccepted := by
  have h : cleanAndPrepareData wRowsC1 = .ok wCleanC1 := by
    norm_num [cleanAndPrepareData, cleanRow, wRowsC1, wRowOkC1, wRowBadYearC1,
      parseFloatSafe, normField, jsTrim, wCleanC1]
    rfl
  exact ⟨h, c1_cleaner_accepts_iff wRowsC1 wCleanC1 h⟩

/-- C2: the cleaner is not total — on a row that passes the year, budget
and cost checks but whose `ActualCompletionDate` is an invalid date, the
imputation branch assigns to the `const ActualCompletionDate` binding and
the whole call throws `TypeError: Assignment to constant variable.`
instead of skipping the row, contradicting both the claim and the source's
own comment "Impute missing ActualCompletionDate with StartDate". -/
theorem c2_cleaner_throws :
    cleanAndPrepareData [cxRowC2] = .error "TypeError: Assignment to constant variable." := by
  rfl

/-- C8 (counterexample): `average` in `src/main.js` does not skip
non-numeric entries — on the all-invalid input `[NaN]` it returns NaN, not
the claimed `0`. -/
theorem c8_average_counterexample :
    MainJS.average [none] = none ∧ (none : Option ℚ) ≠ some 0 := by
  constructor
  · rfl
  · simp

/-- C8 (amended): the `average` of `src/unnamed/part_000` behaves as the
claim states — `0` on an empty or all-invalid input, and otherwise the
arithmetic mean of only the valid entries, with non-numeric entries
counted in neither the sum nor the divisor; `src/main.js`'s variant
instead divides the plain sum by the full length, so any NaN entry makes
its result NaN. -/
theorem c8_average_skips_invalid (arr : List (Option ℚ)) :
    PartJS.average arr =
      (if arr.filterMap id = [] then 0
       else (arr.filterMap id).sum / ((arr.filterMap id).length : ℚ)) ∧
    PartJS.average [] = 0 ∧
    PartJS.average [some 1, some 2, some 3] = 2 := by
  refine ⟨partAverage_eq arr, by rw [partAverage_eq]; simp, ?_⟩
  have h3 : ([some 1, some 2, some 3] : List (Option ℚ)).filterMap id = [1, 2, 3] := rfl
  rw [partAverage_eq, h3]
  norm_num
  simp

/-- C9: `median` returns `0` on empty input and otherwise, over the
sorted sequence of `n` values, the middle element when `n` is odd and the
mean of the two central elements when `n` is even, rounded to 2 decimal
places; in particular `median [] = 0`, `median [5] = 5` and
`median [1,2,3,4] = 2.5`. -/
theorem c9_median_spec (arr s : List ℚ) (hp : s.Perm arr) (hs : s.Sorted (· ≤ ·)) :
    (median arr = if s.isEmpty then 0
      else toFixed2 (if s.length % 2 = 1 then s.getD (s.length / 2) 0
        else (s.getD (s.length / 2 - 1) 0 + s.getD (s.length / 2) 0) / 2)) ∧
    median [] = 0 ∧ median [5] = 5 ∧ median [1, 2, 3, 4] = 5 / 2 := by
  refine ⟨median_eq_sorted arr s hp hs, rfl, ?_, ?_⟩
  · rw [median_eq_sorted [5] [5] (List.Perm.refl _) (by simp)]
    norm_num [toFixed2, round2pos]
  · rw [median_eq_sorted [1, 2, 3, 4] [1, 2, 3, 4] (List.Perm.refl _)
      (by norm_num [List.sorted_cons])]
    norm_num [toFixed2, round2pos]

theorem c9_median_spec_witness :
    ([1, 2, 3] : List ℚ).Sorted (· ≤ ·) ∧ median [3, 1, 2] = 2 := by
  have hs : ([1, 2, 3] : List ℚ).Sorted (· ≤ ·) := by norm_num [List.sorted_cons]
  have hp : ([1, 2, 3] : List ℚ).Perm [3, 1, 2] :=
    ((List.Perm.swap 1 3 [2]).trans (List.Perm.cons 1 (List.Perm.swap 2 3 []))).symm
  refine ⟨hs, ?_⟩
  rw [(c9_median_spec [3, 1, 2] [1, 2, 3] hp hs).1]
  norm_num [toFixed2, round2pos]

/-- C10: every aggregation bucket built by the three analyzers is created
only when its first member is pushed, so each group's lists are nonempty
and the per-group denominators — the delay-list length in
`delayOver30Percent` and the savings-list length in `overrunRate` — are
never zero. -/
theorem c10_groups_nonempty :
    (∀ (data : List CleanedProject), ∀ kv ∈ regionGroups data,
      kv.2.budgets ≠ [] ∧ kv.2.savings ≠ [] ∧ (kv.2.delays.length : ℚ) ≠ 0) ∧
    (∀ (data : List CleanedProject), ∀ kv ∈ contractorGroups data,
      1 ≤ kv.2.projects ∧ kv.2.delays ≠ []) ∧
    (∀ (data : List CleanedProject), ∀ kv ∈ trendGroups data,
      (kv.2.savings.length : ℚ) ≠ 0) := by
  refine ⟨?_, contractorGroups_pos, ?_⟩
  · intro data kv hkv
    obtain ⟨h1, h2, h3⟩ := regionGroups_nonempty data kv hkv
    refine ⟨h1, h2, ?_⟩
    simpa [List.length_eq_zero] using h3
  · intro data kv hkv
    have h := trendGroups_nonempty data kv hkv
    simpa [List.length_eq_zero] using h

theorem c10_groups_nonempty_witness :
    (regionKey projStub, wGroupC10) ∈ regionGroups wDataC10 ∧
    wGroupC10.budgets ≠ [] ∧ wGroupC10.savings ≠ [] ∧
    (((regionKey projStub, wGroupC10) : String × RegionGroup).2.delays.length : ℚ) ≠ 0 := by
  have hmem : (regionKey projStub, wGroupC10) ∈ regionGroups wDataC10 := by
    norm_num [regionGroups, wDataC10, projStub, rawStub, upsert, regionInit,
      regionPush, wGroupC10]
  have h := c10_groups_nonempty.1 wDataC10 _ hmem
  exact ⟨hmem, h.1, h.2.1, h.2.2⟩

/-- C3 (counterexample): `generateReport1` of `src/main.js` performs no
min-max normalization — on a single-group run (savings 20, delay 10) it
outputs the clamped score `100`, not the `0` the claim requires for a
single-group run. -/
theorem c3_single_group_counterexample :
    (MainJS.generateReport1 cxDataC3).map (fun r => r.EfficiencyScore) = [100] ∧
    (MainJS.generateReport1 cxDataC3).length = 1 ∧
    (100 : ℚ) ≠ 0 := by
  have heval : MainJS.generateReport1 cxDataC3 = [MainJS.mkRow1
      { Region := "NCR", MainIsland := "Luzon", budgets := [120], savings := [20],
        delays := [some 10] }] := by
    norm_num [MainJS.generateReport1, regionGroups, cxDataC3, projStub, rawStub,
      upsert, regionKey, regionInit, regionPush, List.insertionSort, List.orderedInsert]
  rw [heval]
  norm_num [MainJS.mkRow1, MainJS.effOf, MainJS.effClampedOf, MainJS.delayOver30Of,
    MainJS.average, median, formatNumberVal, toFixed2, round2pos, toJS,
    JSNum.mul, JSNum.div, List.insertionSort, List.orderedInsert]

/-- C3 (amended): `generateReport1` of `src/unnamed/part_000` behaves as
the claim states — every score is finite and in `[0, 100]` after min-max
normalization across all groups of the run, and a single-group run or
all-equal raw scores sends every output score to `0`; `generateReport1`
of `src/main.js` does not normalize — it clamps each score independently
into `[0, 100]` (so its scores also lie in that range), and a single-group
run outputs the clamped raw score rather than `0`. -/
theorem c3_efficiency_normalized :
    (∀ (data : List CleanedProject), ∀ row ∈ PartJS.generateReport1 data,
      (∃ q, row.EfficiencyScore = JSNum.fin q ∧ 0 ≤ q ∧ q ≤ 100) ∧
      (((PartJS.generateReport1 data).length = 1 ∨
          ∀ x ∈ PartJS.rawScores data, ∀ y ∈ PartJS.rawScores data, x = y) →
        row.EfficiencyScore = JSNum.fin 0)) ∧
    (∀ (data : List CleanedProject), ∀ row ∈ MainJS.generateReport1 data,
      0 ≤ row.EfficiencyScore ∧ row.EfficiencyScore ≤ 100) := by
  constructor
  · intro data row h
    exact ⟨report1_eff_bounds h, fun hall => report1_eff_zero h hall⟩
  · intro data row h
    obtain ⟨kg, _, rfl⟩ := mainMem_generateReport1 h
    exact mainEff_bounds kg.2

theorem c3_efficiency_normalized_witness :
    wRowC3 ∈ PartJS.generateReport1 wDataC3 ∧
    (∃ q, wRowC3.EfficiencyScore = JSNum.fin q ∧ 0 ≤ q ∧ q ≤ 100) ∧
    wRowC3.EfficiencyScore = JSNum.fin 0 ∧
    wMainRowC3 ∈ MainJS.generateReport1 wDataC3 ∧
    0 ≤ wMainRowC3.EfficiencyScore ∧ wMainRowC3.EfficiencyScore ≤ 100 := by
  have heval : PartJS.generateReport1 wDataC3 = [wRowC3] := by
    norm_num [PartJS.generateReport1, PartJS.mkRow1, PartJS.clampEffOf, PartJS.effRawOf,
      PartJS.delayOver30Of, PartJS.average, median, regionGroups, wDataC3, projStub, rawStub,
      upsert, regionKey, regionInit, regionPush, formatNumberVal, toFixed2, round2pos,
      jsMinList, jsMaxList, JSNum.minJ, JSNum.maxJ, JSNum.div, JSNum.strictNe, JSNum.isFinite,
      JSNum.toFixed2J, PartJS.finalEffScore, List.insertionSort, List.orderedInsert, wRowC3]
  have hevalM : MainJS.generateReport1 wDataC3 = [wMainRowC3] := by
    norm_num [MainJS.generateReport1, MainJS.mkRow1, MainJS.effOf, MainJS.effClampedOf,
      MainJS.delayOver30Of, MainJS.average, median, regionGroups, wDataC3, projStub, rawStub,
      upsert, regionKey, regionInit, regionPush, formatNumberVal, toFixed2, round2pos, toJS,
      JSNum.mul, JSNum.div, List.insertionSort, List.orderedInsert, wMainRowC3]
  have hm : wRowC3 ∈ PartJS.generateReport1 wDataC3 := by
    rw [heval]
    exact List.mem_singleton.mpr rfl
  have hmM : wMainRowC3 ∈ MainJS.generateReport1 wDataC3 := by
    rw [hevalM]
    exact List.mem_singleton.mpr rfl
  have h1 := c3_efficiency_normalized.1 wDataC3 wRowC3 hm
  have h2 := c3_efficiency_normalized.2 wDataC3 wMainRowC3 hmM
  exact ⟨hm, h1.1, h1.2 (Or.inl (by rw [heval]; rfl)), hmM, h2.1, h2.2⟩

/-- C4 (counterexample): `generateReport2` of `src/main.js` sorts by the
formatted `TotalCostSavings` string, not by total contract cost — on data
where contractor `"A"` has total cost `500` / savings `50` and contractor
`"B"` has total cost `200` / savings `100`, the report lists `B` before
`A`, so a later row has strictly greater total contract cost. -/
theorem c4_order_counterexample :
    (MainJS.generateReport2 cxDataC4).map (fun r => r.Contractor) = ["B", "A"] ∧
    (contractorGroups cxDataC4).map (fun kv => (kv.1, kv.2.totalCost))
      = [("A", (500 : ℚ)), ("B", 200)] ∧
    (200 : ℚ) < 500 := by
  refine ⟨?_, ?_, by norm_num⟩
  · norm_num [cxDataC4, projStub, rawStub, MainJS.generateReport2, MainJS.mkRow2,
      MainJS.cmpRow2, MainJS.localeNumVal, MainJS.reliabilityOf, MainJS.reliabilityRawOf,
      MainJS.average, contractorGroups, contractorPush, contractorInit, upsert,
      formatNumberVal, toFixed2, round2pos, toJS, JSNum.mul, JSNum.sub, JSNum.div,
      List.replicate, List.insertionSort, List.orderedInsert]
  · have hBe : ¬("B" : String) = "" := by decide
    have hAe : ¬("A" : String) = "" := by decide
    have hAB : ¬("A" : String) = "B" := by decide
    norm_num [cxDataC4, projStub, rawStub, contractorGroups, contractorPush,
      contractorInit, upsert, List.replicate, hBe, hAe, hAB]

/-- C4 (amended): `generateReport2` of `src/unnamed/part_000` satisfies
the claim — no contractor with fewer than 5 qualifying projects, at most
15 rows, and rows non-increasing in total contract cost; `src/main.js`'s
variant keeps the first two properties but orders rows by the formatted
total-savings string instead of by total contract cost. -/
theorem c4_contractor_report_shape (data : List CleanedProject) :
    (PartJS.generateReport2 data).length ≤ 15 ∧
    (∀ row ∈ PartJS.generateReport2 data, 5 ≤ row.NumProjects) ∧
    (PartJS.generateReport2 data).Pairwise (fun a b => b.TotalCost ≤ a.TotalCost) := by
  refine ⟨report2_length_le data, ?_, report2_sorted data⟩
  intro row hrow
  obtain ⟨g, hg, hp5, rfl⟩ := mem_report2 hrow
  exact hp5

theorem c4_contractor_report_shape_witness :
    PartJS.generateReport2 wDataC4 = [wRowC4] ∧
    (PartJS.generateReport2 wDataC4).length ≤ 15 ∧
    5 ≤ wRowC4.NumProjects ∧
    (PartJS.generateReport2 wDataC4).Pairwise (fun a b => b.TotalCost ≤ a.TotalCost) := by
  have heval : PartJS.generateReport2 wDataC4 = [wRowC4] := by
    norm_num [wDataC4, projStub, rawStub, PartJS.generateReport2, PartJS.mkRow2,
      PartJS.dropRaw, PartJS.reliabilityOf, PartJS.reliabilityRawOf, PartJS.average,
      contractorGroups, contractorPush, contractorInit, upsert, formatNumberVal, toFixed2,
      round2pos, JSNum.mul, JSNum.sub, JSNum.div, List.replicate, List.insertionSort,
      List.orderedInsert, wRowC4]
  have h := c4_contractor_report_shape wDataC4
  refine ⟨heval, h.1, ?_, h.2.2⟩
  exact h.2.1 wRowC4 (by rw [heval]; exact List.mem_singleton.mpr rfl)

/-- C5 (counterexample): two divergences from the claim.  In
`src/unnamed/part_000`, with a 2021 baseline weighted average of `1/2`
and a 2022 weighted average of `3/2`, the code divides by
`Math.abs(baseline || 1) = 1/2` and renders `"200.00"`, while the claimed
formula `(yearAvg − baselineAvg) / max(|baselineAvg|, 1) × 100` yields
`"100.00"`.  In `src/main.js`, with 2021 groups of savings `[0, 0]` and
`[3]` and a 2022 group of savings `[6]`, the code takes the *unweighted*
mean of the 2021 group averages (`3/2`) and renders `"300.00"`, while the
claimed project-count-weighted baseline is `1` and would render
`"500.00"`. -/
theorem c5_yoy_counterexample :
    ((PartJS.generateReport3 cxDataC5).map (fun r => (r.FundingYear, r.YoYChange))
      = [(2021, "0.00"), (2022, "200.00")] ∧
     toFixed2Str ((3/2 - 1/2) / max |(1/2 : ℚ)| 1 * 100) = "100.00" ∧
     ("200.00" : String) ≠ "100.00") ∧
    ((MainJS.generateReport3 cxDataC5b).map (fun r => (r.FundingYear, r.YoYChangePercent))
      = [(2021, "0.00"), (2021, "0.00"), (2022, "300.00")] ∧
     toFixed2Str (((PartJS.weightedYearAvgOrZero ((trendGroups cxDataC5b).map Prod.snd) 2022
          - PartJS.weightedYearAvgOrZero ((trendGroups cxDataC5b).map Prod.snd) 2021)
        / |if PartJS.weightedYearAvgOrZero ((trendGroups cxDataC5b).map Prod.snd) 2021 = 0 then 1
            else PartJS.weightedYearAvgOrZero ((trendGroups cxDataC5b).map Prod.snd) 2021|) * 100)
       = "500.00" ∧
     ("300.00" : String) ≠ "500.00") := by
  have hk1 : ¬(toString (2021 : ℤ) ++ "|" ++ "W" = toString (2021 : ℤ) ++ "|" ++ "V") := by
    decide
  have hk2 : ¬(toString (2021 : ℤ) ++ "|" ++ "W" = toString (2022 : ℤ) ++ "|" ++ "W") := by
    decide
  have hk3 : ¬(toString (2021 : ℤ) ++ "|" ++ "V" = toString (2022 : ℤ) ++ "|" ++ "W") := by
    decide
  refine ⟨⟨?_, ?_, by decide⟩, ?_, ?_, by decide⟩
  · have h200 : toFixed2Str 200 = "200.00" := by
      norm_num [toFixed2Str, fracPad]
      rfl
    have habs : |(1/2 : ℚ)| = 1/2 := abs_of_pos (by norm_num)
    norm_num [hk2, h200, habs, toFixed2Str_zero, cxDataC5, projStub, rawStub,
      PartJS.generateReport3, PartJS.mkRow3,
      PartJS.dropRaw3, PartJS.changeOf, PartJS.weightedYearAvgOrZero, PartJS.yearTotal,
      PartJS.yearCount, PartJS.average, trendGroups, trendKey, trendInit, trendPush,
      upsert, formatNumberVal, toFixed2, round2pos,
      List.insertionSort, List.orderedInsert]
  · have harg : (3/2 - 1/2) / max |(1/2 : ℚ)| 1 * 100 = 100 := by
      rw [abs_of_pos (by norm_num : (0 : ℚ) < 1/2)]
      rw [max_eq_right (by norm_num : (1/2 : ℚ) ≤ 1)]
      norm_num
    rw [harg]
    norm_num [toFixed2Str, fracPad]
    rfl
  · have h300 : toFixed2Str 300 = "300.00" := by
      norm_num [toFixed2Str, fracPad]
      rfl
    have hnil : ¬(([some (0 : ℚ), some 3] : List (Option ℚ)) = []) := by simp
    have habs32 : |(3/2 : ℚ)| = 3/2 := abs_of_pos (by norm_num)
    norm_num [hk1, hk2, hk3, h300, hnil, habs32, toFixed2Str_zero, cxDataC5b, projStub, rawStub,
      MainJS.generateReport3, MainJS.mkRow3, MainJS.cmpRow3, MainJS.localeNumVal,
      MainJS.changeOf, MainJS.yearAvgM, MainJS.baselineM, MainJS.yearAvgList,
      MainJS.average, MainJS.absOr1, MainJS.toFixed2StrJ, toJS,
      JSNum.sub, JSNum.div, JSNum.mul,
      trendGroups, trendKey, trendInit, trendPush, upsert,
      formatNumberVal, toFixed2, round2pos,
      List.insertionSort, List.orderedInsert]
  · have h500 : toFixed2Str 500 = "500.00" := by
      norm_num [toFixed2Str, fracPad]
      rfl
    have hw21 : PartJS.weightedYearAvgOrZero ((trendGroups cxDataC5b).map Prod.snd) 2021 = 1 := by
      norm_num [hk1, hk2, hk3, PartJS.weightedYearAvgOrZero, PartJS.yearTotal, PartJS.yearCount,
        trendGroups, trendKey, trendInit, trendPush, upsert, cxDataC5b, projStub, rawStub]
    have hw22 : PartJS.weightedYearAvgOrZero ((trendGroups cxDataC5b).map Prod.snd) 2022 = 6 := by
      norm_num [hk1, hk2, hk3, PartJS.weightedYearAvgOrZero, PartJS.yearTotal, PartJS.yearCount,
        trendGroups, trendKey, trendInit, trendPush, upsert, cxDataC5b, projStub, rawStub]
    have harg : (((6 : ℚ) - 1) / |if (1 : ℚ) = 0 then 1 else 1|) * 100 = 500 := by
      norm_num
    rw [hw22, hw21, harg]
    exact h500

/-- C5 (amended): in the cost-trend report of `src/unnamed/part_000`, each
year's aggregate savings figure is the project-count-weighted average of
savings over that year's `(year, typeOfWork)` groups, while in
`src/main.js` it is the *unweighted* mean of the per-group savings
averages of that year.  In both variants a row's rendered change is
exactly `"0.00"` when its funding year is 2021, and otherwise equals
`(yearAvg − baselineAvg) / |baselineAvg|` (or divided by `1` when the
baseline is zero) `× 100` to 2 decimal places — the divisor is
`Math.abs(baseline || 1)`, not `max(|baselineAvg|, 1)`. -/
theorem c5_trend_yoy (data : List CleanedProject) (row : PartJS.Report3Row)
    (h : row ∈ PartJS.generateReport3 data) :
    ((row.FundingYear = 2021 → row.YoYChange = "0.00") ∧
     (row.FundingYear ≠ 2021 → row.YoYChange = toFixed2Str
       (((PartJS.weightedYearAvgOrZero ((trendGroups data).map Prod.snd) row.FundingYear
           - PartJS.weightedYearAvgOrZero ((trendGroups data).map Prod.snd) 2021) /
         |if PartJS.weightedYearAvgOrZero ((trendGroups data).map Prod.snd) 2021 = 0 then 1
           else PartJS.weightedYearAvgOrZero ((trendGroups data).map Prod.snd) 2021|) * 100)) ∧
     (∀ y : ℤ, PartJS.yearCount ((trendGroups data).map Prod.snd) y ≠ 0 →
       PartJS.weightedYearAvgOrZero ((trendGroups data).map Prod.snd) y
         = PartJS.weightedAvgSpec ((trendGroups data).map Prod.snd) y)) ∧
    ((∀ rowM ∈ MainJS.generateReport3 data,
       (rowM.FundingYear = 2021 → rowM.YoYChangePercent = "0.00") ∧
       (rowM.FundingYear ≠ 2021 → rowM.YoYChangePercent = MainJS.toFixed2StrJ
         (JSNum.mul
           (JSNum.div
             (JSNum.sub
               (toJS (MainJS.yearAvgM ((trendGroups data).map Prod.snd) rowM.FundingYear))
               (toJS (MainJS.baselineM ((trendGroups data).map Prod.snd))))
             (JSNum.fin (MainJS.absOr1 (MainJS.baselineM ((trendGroups data).map Prod.snd)))))
           (JSNum.fin 100)))) ∧
     (∀ y : ℤ,
       ((trendGroups data).map Prod.snd).filter (fun g => decide (g.FundingYear = y)) ≠ [] →
       MainJS.yearAvgM ((trendGroups data).map Prod.snd) y
         = some (((((trendGroups data).map Prod.snd).filter
               (fun g => decide (g.FundingYear = y))).map
             (fun g => g.savings.sum / (g.savings.length : ℚ))).sum
           / ((((trendGroups data).map Prod.snd).filter
               (fun g => decide (g.FundingYear = y))).length : ℚ)))) := by
  constructor
  · obtain ⟨g, hg, rfl⟩ := mem_report3 h
    refine ⟨?_, ?_, fun y hc => weightedAvg_eq_spec data y hc⟩
    · intro h2021
      show toFixed2Str (PartJS.changeOf ((trendGroups data).map Prod.snd) g.FundingYear) = "0.00"
      have hgy : g.FundingYear = 2021 := h2021
      rw [hgy]
      unfold PartJS.changeOf
      norm_num [toFixed2Str_zero]
    · intro hne
      have hgy : g.FundingYear ≠ 2021 := hne
      show toFixed2Str (PartJS.changeOf ((trendGroups data).map Prod.snd) g.FundingYear) = _
      unfold PartJS.changeOf
      rw [if_neg hgy]
      rfl
  · constructor
    · intro rowM hM
      obtain ⟨g, hg, rfl⟩ := mainMem_report3 hM
      constructor
      · intro h2021
        have hgy : g.FundingYear = 2021 := h2021
        show MainJS.toFixed2StrJ
          (MainJS.changeOf ((trendGroups data).map Prod.snd) g.FundingYear) = "0.00"
        rw [hgy]
        unfold MainJS.changeOf
        norm_num [toFixed2StrJ_fin_zero]
      · intro hne
        have hgy : g.FundingYear ≠ 2021 := hne
        show MainJS.toFixed2StrJ
          (MainJS.changeOf ((trendGroups data).map Prod.snd) g.FundingYear) = _
        unfold MainJS.changeOf
        rw [if_neg hgy]
        rfl
    · intro y hy
      exact mainYearAvg_eq_naive data y hy

/-- C5 witness data and rows: on `wDataC5` the 2022 rows of both variants
render their change by the corrected formulas, and both yearly aggregate
characterizations hold at the 2021 baseline. -/
theorem c5_trend_yoy_witness :
    wRowC5 ∈ PartJS.generateReport3 wDataC5 ∧
    wRowC5.FundingYear ≠ 2021 ∧
    wRowC5.YoYChange = toFixed2Str
      (((PartJS.weightedYearAvgOrZero ((trendGroups wDataC5).map Prod.snd) wRowC5.FundingYear
          - PartJS.weightedYearAvgOrZero ((trendGroups wDataC5).map Prod.snd) 2021) /
        |if PartJS.weightedYearAvgOrZero ((trendGroups wDataC5).map Prod.snd) 2021 = 0 then 1
          else PartJS.weightedYearAvgOrZero ((trendGroups wDataC5).map Prod.snd) 2021|) * 100) ∧
    PartJS.yearCount ((trendGroups wDataC5).map Prod.snd) 2021 ≠ 0 ∧
    PartJS.weightedYearAvgOrZero ((trendGroups wDataC5).map Prod.snd) 2021
      = PartJS.weightedAvgSpec ((trendGroups wDataC5).map Prod.snd) 2021 ∧
    wMainRowC5 ∈ MainJS.generateReport3 wDataC5 ∧
    wMainRowC5.FundingYear ≠ 2021 ∧
    wMainRowC5.YoYChangePercent = MainJS.toFixed2StrJ
      (JSNum.mul
        (JSNum.div
          (JSNum.sub
            (toJS (MainJS.yearAvgM ((trendGroups wDataC5).map Prod.snd) wMainRowC5.FundingYear))
            (toJS (MainJS.baselineM ((trendGroups wDataC5).map Prod.snd))))
          (JSNum.fin (MainJS.absOr1 (MainJS.baselineM ((trendGroups wDataC5).map Prod.snd)))))
        (JSNum.fin 100)) ∧
    ((trendGroups wDataC5).map Prod.snd).filter
      (fun g => decide (g.FundingYear = (2021 : ℤ))) ≠ [] ∧
    MainJS.yearAvgM ((trendGroups wDataC5).map Prod.snd) 2021
      = some (((((trendGroups wDataC5).map Prod.snd).filter
            (fun g => decide (g.FundingYear = (2021 : ℤ)))).map
          (fun g => g.savings.sum / (g.savings.length : ℚ))).sum
        / ((((trendGroups wDataC5).map Prod.snd).filter
            (fun g => decide (g.FundingYear = (2021 : ℤ)))).length : ℚ)) := by
  have hkey : ¬(toString (2021 : ℤ) ++ "|" ++ "W" = toString (2022 : ℤ) ++ "|" ++ "W") := by
    decide
  have heval : PartJS.generateReport3 wDataC5
      = [{ FundingYear := 2021, TypeOfWork := "W", TotalProjects := 1, AvgCostSavings := 1,
           OverrunRate := 0, YoYChange := "0.00" }, wRowC5] := by
    norm_num [hkey, wDataC5, projStub, rawStub, PartJS.generateReport3, PartJS.mkRow3,
      PartJS.dropRaw3, PartJS.changeOf, PartJS.weightedYearAvgOrZero, PartJS.yearTotal,
      PartJS.yearCount, PartJS.average, trendGroups, trendKey, trendInit, trendPush,
      upsert, formatNumberVal, toFixed2, round2pos, toFixed2Str, fracPad,
      List.insertionSort, List.orderedInsert, wRowC5]
    exact ⟨rfl, rfl⟩
  have hm : wRowC5 ∈ PartJS.generateReport3 wDataC5 := by
    rw [heval]
    exact List.mem_cons_of_mem _ (List.mem_singleton.mpr rfl)
  have hne : wRowC5.FundingYear ≠ 2021 := by norm_num [wRowC5]
  have hcount : PartJS.yearCount ((trendGroups wDataC5).map Prod.snd) 2021 ≠ 0 := by
    norm_num [hkey, wDataC5, projStub, rawStub, PartJS.yearCount, trendGroups, trendKey,
      trendInit, trendPush, upsert]
  have hevalM : MainJS.generateReport3 wDataC5
      = [{ FundingYear := 2021, TypeOfWork := "W", TotalProjects := 1, AvgCostSavings := 1,
           OverrunRate := 0, YoYChangePercent := "0.00" }, wMainRowC5] := by
    have h100 : toFixed2Str 100 = "100.00" := by
      norm_num [toFixed2Str, fracPad]
      rfl
    have hnil : ¬(([some (1 : ℚ)] : List (Option ℚ)) = []) := by simp
    have habs1 : |(1 : ℚ)| = 1 := abs_one
    norm_num [hkey, h100, hnil, habs1, toFixed2Str_zero, wDataC5, projStub, rawStub,
      MainJS.generateReport3, MainJS.mkRow3, MainJS.cmpRow3, MainJS.localeNumVal,
      MainJS.changeOf, MainJS.yearAvgM, MainJS.baselineM, MainJS.yearAvgList,
      MainJS.average, MainJS.absOr1, MainJS.toFixed2StrJ, toJS,
      JSNum.sub, JSNum.div, JSNum.mul,
      trendGroups, trendKey, trendInit, trendPush, upsert,
      formatNumberVal, toFixed2, round2pos,
      List.insertionSort, List.orderedInsert, wMainRowC5]
  have hmM : wMainRowC5 ∈ MainJS.generateReport3 wDataC5 := by
    rw [hevalM]
    exact List.mem_cons_of_mem _ (List.mem_singleton.mpr rfl)
  have hneM : wMainRowC5.FundingYear ≠ 2021 := by norm_num [wMainRowC5]
  have hfilter : ((trendGroups wDataC5).map Prod.snd).filter
      (fun g => decide (g.FundingYear = (2021 : ℤ))) ≠ [] := by
    norm_num [hkey, wDataC5, projStub, rawStub, trendGroups, trendKey, trendInit, trendPush,
      upsert]
  have h := c5_trend_yoy wDataC5 wRowC5 hm
  exact ⟨hm, hne, h.1.2.1 hne, hcount, h.1.2.2 2021 hcount, hmM, hneM,
    (h.2.1 wMainRowC5 hmM).2 hneM, hfilter, h.2.2 2021 hfilter⟩

set_option maxHeartbeats 1000000 in
/-- C6: summing the displayed `TotalApprovedBudget` over all regional
report rows recovers the sum of `approvedBudget` over all cleaned
projects, up to the 2-decimal display rounding (at most half a cent per
row). -/
theorem c6_budget_roundtrip (data : List CleanedProject) :
    |((PartJS.generateReport1 data).map (fun r => r.TotalApprovedBudget)).sum
      - (data.map (fun p => p.ApprovedBudgetForContract)).sum|
      ≤ ((PartJS.generateReport1 data).length : ℚ) / 200 := by
  have hperm := report1_TAB_perm data
  rw [hperm.sum_eq, ← regionGroups_budgetsSum data]
  have hlen : (PartJS.generateReport1 data).length
      = ((regionGroups data).map (fun kv => kv.2.budgets.sum)).length := by
    rw [report1_length]
    simp [PartJS.rawScores]
  rw [hlen]
  have hmm : (regionGroups data).map (fun kv => toFixed2 kv.2.budgets.sum)
      = ((regionGroups data).map (fun kv => kv.2.budgets.sum)).map toFixed2 := by
    rw [List.map_map]
    rfl
  rw [hmm]
  exact abs_sum_toFixed2_sub _

/-- C7: each division that can be degenerate is resolved to a defined
finite value before output — a zero average delay makes the clamped
efficiency `0`, a zero total contract cost makes the reliability index `0`
in both source files, and the normalized efficiency scores of the regional
report are always finite numbers (never NaN or an infinity). -/
theorem c7_no_nonfinite_output :
    (∀ g : RegionGroup, PartJS.average g.delays = 0 → PartJS.clampEffOf g = 0) ∧
    (∀ g : ContractorGroup, g.totalCost = 0 → PartJS.reliabilityOf g = 0) ∧
    (∀ g : ContractorGroup, g.totalCost = 0 → MainJS.reliabilityOf g = 0) ∧
    (∀ (data : List CleanedProject), ∀ row ∈ PartJS.generateReport1 data,
      ∃ q, row.EfficiencyScore = JSNum.fin q) :=
  ⟨clampEffOf_of_avgDelay_zero, partReliability_of_cost_zero, mainReliability_of_cost_zero,
    fun _ _ h => (report1_eff_bounds h).imp (fun _ hq => hq.1)⟩

theorem c7_no_nonfinite_output_witness :
    PartJS.average wRegionC7.delays = 0 ∧ PartJS.clampEffOf wRegionC7 = 0 ∧
    wGroupC7.totalCost = 0 ∧ PartJS.reliabilityOf wGroupC7 = 0 ∧
    MainJS.reliabilityOf wGroupC7 = 0 ∧
    wRowC7 ∈ PartJS.generateReport1 wDataC7 ∧
    (∃ q, wRowC7.EfficiencyScore = JSNum.fin q) := by
  have h1 : PartJS.average wRegionC7.delays = 0 := by
    norm_num [PartJS.average, wRegionC7]
  have h3 : wGroupC7.totalCost = 0 := rfl
  have heval : PartJS.generateReport1 wDataC7 = [wRowC7] := by
    norm_num [PartJS.generateReport1, PartJS.mkRow1, PartJS.clampEffOf, PartJS.effRawOf,
      PartJS.delayOver30Of, PartJS.average, median, regionGroups, wDataC7, projStub, rawStub,
      upsert, regionKey, regionInit, regionPush, formatNumberVal, toFixed2, round2pos,
      jsMinList, jsMaxList, JSNum.minJ, JSNum.maxJ, JSNum.div, JSNum.strictNe, JSNum.isFinite,
      JSNum.toFixed2J, PartJS.finalEffScore, List.insertionSort, List.orderedInsert, wRowC7]
  have hm : wRowC7 ∈ PartJS.generateReport1 wDataC7 := by
    rw [heval]
    exact List.mem_singleton.mpr rfl
  exact ⟨h1, c7_no_nonfinite_output.1 wRegionC7 h1, h3,
    c7_no_nonfinite_output.2.1 wGroupC7 h3, c7_no_nonfinite_output.2.2.1 wGroupC7 h3,
    hm, c7_no_nonfinite_output.2.2.2 wDataC7 wRowC7 hm⟩
